import Mathlib

/-
Verification of the GitAgent session-execution-context core.

The Python source is shallowly embedded: the remote GitHub API is modelled by
explicit response values handed to each operation, PostgreSQL state by an
explicit record of the two tables, and psycopg2-level failures by injected
failure flags.  String formatting mirrors the f-strings of the source; literal
braces and apostrophes inside string literals are written with \x7b, \x7d and
\x27 escapes.
-/

namespace GitAgent

/-! Basic string machinery.  Python compares strings lexicographically by code
point; Lean String.lt does not reduce in the kernel, so the comparison is
re-implemented structurally on the underlying character list. -/

def strLtB : List Char → List Char → Bool
  | _, [] => false
  | [], _ :: _ => true
  | a :: as, b :: bs => if a < b then true else if b < a then false else strLtB as bs

/-- Embedding of the ordering used by Python sorted() on strings: a <= b. -/
def pyLe (a b : String) : Prop := strLtB b.data a.data = false

instance : DecidableRel pyLe := fun a b => by unfold pyLe; infer_instance

/-! Data model: the Session Context (schemas.py UserContext), Execution
Records (the dict appended to tool_executions) and Repository Snapshots
(the dict stored in repos_cache by cache_repo_structure). -/

/-- Values occurring in a tool input mapping; rendered the way Python str()
renders them inside a dict repr. -/
inductive PyVal where
  | str (s : String)
  | int (n : Int)
  | bool (b : Bool)
deriving Repr, DecidableEq

/-- The input field of an Execution Record: a dict for every tool except
list_repos, which stores tool_input = None (list_repos.py line 27). -/
inductive ToolInput where
  | dict (kvs : List (String × PyVal))
  | nullInput
deriving Repr, DecidableEq

/-- One Execution Record: the dict appended to UserContext.tool_executions
by the tools in src/tools. -/
structure ToolRecord where
  tool_name : String
  input : ToolInput
  output : String
deriving Repr, DecidableEq

/-- Kind tag of a cached tree entry; fetch_repo_tree_recursive only ever
stores the strings "file" and "dir" in the type field. -/
inductive EKind where
  | file
  | dir
deriving Repr, DecidableEq

/-- One entry of a snapshot file tree: a dict with keys name, path, type,
and for files also size and download_url (option none = key absent). -/
structure Entry where
  name : String
  path : String
  kind : EKind
  size : Option Nat
  download_url : Option String
deriving Repr, DecidableEq

/-- A Repository Snapshot: the dict stored at repos_cache full_name by
cache_repo_structure (lines 136-144). -/
structure RepoSnapshot where
  owner : String
  repo : String
  full_name : String
  file_count : Nat
  dir_count : Nat
  files : List Entry
  cached_at : String
deriving Repr, DecidableEq

/-- The Session Context (schemas.py UserContext), with the field order of
the dataclass; repos_cache is the insertion-ordered dict. -/
structure Ctx where
  github_username : String
  model : String
  github_name : Option String
  github_id : Int
  session_id : Option String
  timestamp : String
  access_token : String
  tool_executions : List ToolRecord
  repos_cache : List (String × RepoSnapshot)
deriving Repr, DecidableEq

/-- Builder for concrete Session Contexts in witness scenarios, with the
model string of main.py line 82 and default identity fields. -/
def mkCtx (username token ts : String) (trail : List ToolRecord)
    (cache : List (String × RepoSnapshot)) : Ctx :=
  ⟨username, "openai/gpt-oss-120b", none, 0, none, ts, token, trail, cache⟩

/-- Lookup in an insertion-ordered dict (Python `k in d` / `d[k]`). -/
def alookup {α : Type} (k : String) : List (String × α) → Option α
  | [] => none
  | (k2, v) :: rest => if k2 = k then some v else alookup k rest

/-- Write to an insertion-ordered dict (`d[k] = v`): overwrite in place when
the key exists, append otherwise, as a Python dict does. -/
def aset {α : Type} (k : String) (v : α) : List (String × α) → List (String × α)
  | [] => [(k, v)]
  | (k2, v2) :: rest => if k2 = k then (k, v) :: rest else (k2, v2) :: aset k v rest

/-- Python `s[:cap] + "..." if len(s) > cap else s`, the audit-output
truncation written inline in get_file_content line 143 and get_pr_diff
line 150. Python slices by code point, so take on the char list matches. -/
def pyTruncate (cap : Nat) (s : String) : String :=
  if s.length > cap then String.mk (s.data.take cap) ++ "..." else s

/-- Python `"/" in repo_name` followed by `repo_name.split("/", 1)`: split at
the first slash, otherwise use the authenticated username as owner (the
name-parsing prologue shared by the tools). -/
def breakAtSlash : List Char → List Char × List Char
  | [] => ([], [])
  | c :: cs => if c = '/' then ([], cs) else
      let p := breakAtSlash cs
      (c :: p.1, p.2)

def splitOwnerRepo (username repo_name : String) : String × String :=
  if repo_name.data.contains '/' then
    let p := breakAtSlash repo_name.data
    (String.mk p.1, String.mk p.2)
  else (username, repo_name)

/-- Python `f"{size/1024:.1f}"` style one-decimal rendering, modelled with
exact rational rounding (half up); the source formats a float, which can
differ from this only on representation-error ties, and no verified claim
depends on the digits. -/
def fmt1dec (n d : Nat) : String :=
  let t := (n * 10 + d / 2) / d
  toString (t / 10) ++ "." ++ toString (t % 10)

/-- The size pretty-printer of get_file_content lines 64-69 and
list_repo_files lines 112-117. -/
def size_str (n : Nat) : String :=
  if n < 1024 then toString n ++ " B"
  else if n < 1024 * 1024 then fmt1dec n 1024 ++ " KB"
  else fmt1dec n (1024 * 1024) ++ " MB"

/-- Python str.upper restricted to ASCII, as applied to PR state strings
and review events. -/
def asciiUpper (s : String) : String := String.mk (s.data.map Char.toUpper)

/-- Python str.capitalize restricted to ASCII: first character upper, rest
lower (list_pull_requests.py line 69). -/
def pyCapitalize (s : String) : String :=
  match s.data with
  | [] => ""
  | c :: cs => String.mk (Char.toUpper c :: cs.map Char.toLower)

/-- Python `'='*80` and `'-'*80` from get_pr_diff. -/
def repChar (c : Char) (n : Nat) : String := String.mk (List.replicate n c)

/-- Python `s[:cap] if len(s) > cap else s`, the plain truncation (no
ellipsis) used by create_branch, create_pull_request, list_branches,
list_pull_requests and merge_pull_request. -/
def pyTruncatePlain (cap : Nat) (s : String) : String :=
  if s.length > cap then String.mk (s.data.take cap) else s

/-- Python f-string rendering of an optional int: str(None) is "None". -/
def pyFmtOptInt : Option Int → String
  | none => "None"
  | some n => toString n

/-- Python f-string rendering of an optional string: str(None) is "None". -/
def pyFmtOptStr : Option String → String
  | none => "None"
  | some s => s

/-- Python `x or default` over an optional string: None and the empty
string are falsy. -/
def pyOrStr (o : Option String) (d : String) : String :=
  match o with
  | none => d
  | some s => if s = "" then d else s

/-- Python str.startswith over the character list. -/
def listStartsWith : List Char → List Char → Bool
  | [], _ => true
  | _ :: _, [] => false
  | a :: as, b :: bs => a == b && listStartsWith as bs

/-- Python rstrip("/"): drop every trailing slash. -/
def rstripSlash (l : List Char) : List Char :=
  (l.reverse.dropWhile (fun c => c == '/')).reverse

/-- Python split("/") over the character list: "a/b" gives [a, b], the
empty string gives [""], leading or doubled slashes give empty pieces. -/
def splitSlash : List Char → List (List Char)
  | [] => [[]]
  | c :: cs =>
    if c = '/' then [] :: splitSlash cs
    else
      match splitSlash cs with
      | [] => [[c]]
      | p :: rest => (c :: p) :: rest

/-- Python repo.replace(".git", ""): remove every occurrence of the
4-character pattern (fork_repo.py line 41). -/
def replaceDotGit : List Char → List Char
  | [] => []
  | c :: cs =>
    if listStartsWith ['.', 'g', 'i', 't'] (c :: cs) then replaceDotGit (cs.drop 3)
    else c :: replaceDotGit cs
termination_by l => l.length
decreasing_by
  · simp [List.length_drop]
    omega
  · simp

/-- Append one Execution Record to the Session Context, the
`user_ctx.tool_executions.append({...})` epilogue shared by the tracking
tools. -/
def track (ctx : Ctx) (name : String) (input : ToolInput) (output : String) : Ctx :=
  { ctx with tool_executions := ctx.tool_executions ++ [⟨name, input, output⟩] }

/-! Repository tree fetch (src/tools/cache_repo_structure.py).  The remote
contents API is modelled as the tree of its responses: listing a directory
either fails (non-200 status or raised request error, both of which make the
recursive call contribute nothing) or yields the items of the directory in
listing order.  An item of a type other than file or dir is skipped by the
source loop. -/

inductive RItem where
  | file (name path : String) (size : Nat) (download_url : String)
  | dir (name path : String) (listing : Option (List RItem))
  | other
deriving Repr

/-- Listing response for one directory: none models a non-200 response or a
raised network error (both covered by lines 35 and 63-65), some gives the
parsed JSON list. -/
abbrev RepoTree := Option (List RItem)

/-- The dict appended for a discovered file (lines 45-51). -/
def fileEntry (name path : String) (size : Nat) (durl : String) : Entry :=
  ⟨name, path, EKind.file, some size, some durl⟩

/-- The dict appended for a discovered directory (lines 54-58); it has no
size or download_url key. -/
def dirEntry (name path : String) : Entry :=
  ⟨name, path, EKind.dir, none, none⟩

/-- The body of fetch_repo_tree_recursive applied to a successful listing:
files are appended, directories are appended and then recursed into
(pre-order), anything else is skipped. -/
def fetchItems : List RItem → List Entry
  | [] => []
  | RItem.file n p s u :: rest => fileEntry n p s u :: fetchItems rest
  | RItem.dir n p none :: rest => dirEntry n p :: fetchItems rest
  | RItem.dir n p (some sub) :: rest => dirEntry n p :: (fetchItems sub ++ fetchItems rest)
  | RItem.other :: rest => fetchItems rest

/-- fetch_repo_tree_recursive (lines 7-67): a failed listing contributes no
entries and raises nothing; the function always returns a plain list. -/
def fetch_repo_tree_recursive : RepoTree → List Entry
  | none => []
  | some items => fetchItems items

/-- The snapshot dict stored at repos_cache full_name (lines 136-144). -/
def mkSnapshot (owner repo full_name : String) (file_tree : List Entry)
    (cached_at : String) : RepoSnapshot :=
  { owner := owner
    repo := repo
    full_name := full_name
    file_count := (file_tree.filter (fun f => f.kind == EKind.file)).length
    dir_count := (file_tree.filter (fun f => f.kind == EKind.dir)).length
    files := file_tree
    cached_at := cached_at }

/-- Outcome of the GET /user/repos listing used by the cache-all branch
(lines 100-123): the parsed full_name list on 200, no repositories on any
other status, or a raised request error. -/
inductive CRSRemote where
  | ok (full_names : List String)
  | errorStatus
  | netError (e : String)
  | unexpected (e : String)
deriving Repr, DecidableEq

/-- Python truthiness of the optional repo_name argument
(`if repo_name:` and `repo_name or "all repositories"`). -/
def truthyOpt : Option String → Bool
  | none => false
  | some s => s ≠ ""

/-- The repos_to_cache list of the cache-all branch (lines 100-123): the
full names of the listed repositories that contain a slash, split at the
first slash; any non-200 listing response leaves the list empty. -/
def crsAllRepos (listResp : CRSRemote) : List (String × String × String) :=
  match listResp with
  | CRSRemote.ok fulls =>
    (fulls.filter (fun f => f.data.contains '/')).map (fun f =>
      let p := breakAtSlash f.data
      (String.mk p.1, String.mk p.2, f))
  | _ => []

/-- The caching loop of lines 126-145: fetch each tree and store a snapshot. -/
def cacheAll (timestamp : String) (treeOf : String → RepoTree) :
    List (String × String × String) → List (String × RepoSnapshot) → List (String × RepoSnapshot)
  | [], cache => cache
  | (owner, repo, full) :: rest, cache =>
    cacheAll timestamp treeOf rest
      (aset full (mkSnapshot owner repo full (fetch_repo_tree_recursive (treeOf full)) timestamp) cache)

/-- cache_repo_structure (lines 70-177).  treeOf gives, per full repository
name, the tree of contents-API responses; listResp is the /user/repos
response consumed only by the cache-all branch. -/
def cache_repo_structure (ctx : Ctx) (repo_name : Option String)
    (treeOf : String → RepoTree) (listResp : CRSRemote) : Ctx × String :=
  let tool_input := ToolInput.dict
    [("repo_name", PyVal.str (if truthyOpt repo_name then repo_name.getD ""
        else "all repositories"))]
  let cr : List (String × RepoSnapshot) × String :=
    if truthyOpt repo_name then
      let p := splitOwnerRepo ctx.github_username (repo_name.getD "")
      let full := p.1 ++ "/" ++ p.2
      let cache2 := cacheAll ctx.timestamp treeOf [(p.1, p.2, full)] ctx.repos_cache
      let fc := match alookup full cache2 with
        | some snap => snap.file_count
        | none => 0
      let dc := match alookup full cache2 with
        | some snap => snap.dir_count
        | none => 0
      let tot := match alookup full cache2 with
        | some snap => snap.files.length
        | none => 0
      (cache2,
       "Successfully cached repository structure!\n- Repository: " ++ full
         ++ "\n- Files: " ++ toString fc
         ++ "\n- Directories: " ++ toString dc
         ++ "\n- Total items: " ++ toString tot
         ++ "\n\nThe repository structure is now cached and can be quickly accessed.")
    else
      match listResp with
      | CRSRemote.netError e =>
        (ctx.repos_cache, "Error connecting to GitHub API: " ++ e)
      | CRSRemote.unexpected e =>
        (ctx.repos_cache, "Unexpected error while caching repository structure: " ++ e)
      | _ =>
        let repos := crsAllRepos listResp
        let cache2 := cacheAll ctx.timestamp treeOf repos ctx.repos_cache
        let total_files := (cache2.map (fun c => c.2.file_count)).sum
        let total_dirs := (cache2.map (fun c => c.2.dir_count)).sum
        (cache2,
         "Successfully cached all repository structures!\n- Repositories cached: "
           ++ toString repos.length
           ++ "\n- Total files: " ++ toString total_files
           ++ "\n- Total directories: " ++ toString total_dirs
           ++ "\n\nAll repository structures are now cached and can be quickly accessed.")
  (track { ctx with repos_cache := cr.1 } "cache_repo_structure" tool_input cr.2, cr.2)

/-! get_file_content (src/tools/get_file_content.py). -/

/-- Outcome of base64-decoding the 200-response content (lines 72-104):
utf-8 text, a binary file (kept with its download_url, default provided at
the read), a base64 decode failure, or a non-base64 encoding value. -/
inductive ContentOutcome where
  | text (s : String)
  | binary (download_url : Option String)
  | decodeFail (e : String)
deriving Repr, DecidableEq

/-- The parsed JSON of a 200 contents response; option none models an absent
key, read with the defaults of the source .get calls. -/
structure FileData where
  type_ : Option String
  name : Option String
  size : Option Nat
  encoding : Option String
  content : ContentOutcome
deriving Repr, DecidableEq

/-- The remote interaction of one get_file_content call: the classified
response status, or a raised exception. -/
inductive GFCResp where
  | ok (fd : FileData)
  | notFound
  | forbidden
  | unauthorized
  | otherStatus (status : Nat) (message : Option String)
  | valueErr (e : String)
  | netError (e : String)
  | unexpected (e : String)
deriving Repr, DecidableEq

/-- The fallback body of the 404 branch (lines 112-117): all cached paths of
type file, sorted ascending, joined with newlines. -/
def cachedFilePathsSorted (snap : RepoSnapshot) : List String :=
  List.insertionSort pyLe
    ((snap.files.filter (fun f => f.kind == EKind.file)).map (fun f => f.path))

/-- The 200-branch result string of get_file_content (lines 51-106). -/
def gfcOkResult (owner repo file_path : String) (fd : FileData) : String :=
  if fd.type_ ≠ some "file" then
    "Error: \x27" ++ file_path ++ "\x27 is not a file. It appears to be a "
      ++ fd.type_.getD "directory" ++ "."
  else
    let file_name := fd.name.getD "Unknown"
    let file_size := fd.size.getD 0
    let encoding := fd.encoding.getD "base64"
    if encoding = "base64" then
      match fd.content with
      | ContentOutcome.text content0 =>
        let content :=
          if content0.length > 10000 then
            String.mk (content0.data.take 10000)
              ++ "\n\n... (truncated, showing first 10000 characters of "
              ++ toString content0.length ++ " total)"
          else content0
        "File: " ++ file_name ++ "\nPath: " ++ file_path ++ "\nSize: "
          ++ size_str file_size ++ "\nRepository: " ++ owner ++ "/" ++ repo
          ++ "\n\n--- Content ---\n" ++ content
      | ContentOutcome.binary durl =>
        "File: " ++ file_name ++ "\nPath: " ++ file_path ++ "\nSize: "
          ++ size_str file_size ++ "\nRepository: " ++ owner ++ "/" ++ repo
          ++ "\nType: Binary file\n\nThis is a binary file and cannot be displayed as text.\nDownload URL: "
          ++ durl.getD "N/A"
      | ContentOutcome.decodeFail e => "Error decoding file content: " ++ e
    else "Error: Unsupported encoding \x27" ++ encoding ++ "\x27"

/-- The result string of get_file_content across all branches
(lines 35-137). -/
def gfcResult (ctx : Ctx) (owner repo file_path : String) (resp : GFCResp) : String :=
  match resp with
  | GFCResp.ok fd => gfcOkResult owner repo file_path fd
  | GFCResp.notFound =>
    let full_repo_name := owner ++ "/" ++ repo
    match alookup full_repo_name ctx.repos_cache with
    | some snap =>
      "Error: File \x27" ++ file_path ++ "\x27 not found in repository \x27"
        ++ full_repo_name ++ "\x27. Available files in this repository: "
        ++ String.intercalate "\n"
            ((cachedFilePathsSorted snap).map (fun p => "  - " ++ p))
        ++ " Please choose the closest matching file from the list above and try again."
    | none =>
      "Error: File \x27" ++ file_path ++ "\x27 not found in repository \x27"
        ++ owner ++ "/" ++ repo ++ "\x27.1"
  | GFCResp.forbidden =>
    "Error: You don\x27t have permission to access \x27" ++ owner ++ "/" ++ repo
      ++ "\x27. The repository might be private."
  | GFCResp.unauthorized => "Error: Authentication failed. Please check your access token."
  | GFCResp.otherStatus status message =>
    "Error fetching file content: " ++ message.getD "Unknown error"
      ++ " (Status: " ++ toString status ++ ")"
  | GFCResp.valueErr e => "Error: Invalid repository name format. " ++ e
  | GFCResp.netError e => "Error connecting to GitHub API: " ++ e
  | GFCResp.unexpected e => "Unexpected error while fetching file content: " ++ e

/-- get_file_content (lines 7-146): build the result, then append one record
whose output is truncated at 500 characters plus an ellipsis. -/
def get_file_content (ctx : Ctx) (repo_name file_path : String) (resp : GFCResp) :
    Ctx × String :=
  let p := splitOwnerRepo ctx.github_username repo_name
  let tool_input := ToolInput.dict
    [("repo_name", PyVal.str (p.1 ++ "/" ++ p.2)), ("file_path", PyVal.str file_path)]
  let result := gfcResult ctx p.1 p.2 file_path resp
  (track ctx "get_file_content" tool_input (pyTruncate 500 result), result)

/-! create_repo (src/tools/create_repo.py). -/

/-- Parsed JSON of a 201 create response, keys read with .get defaults. -/
structure RepoCreated where
  html_url : Option String
  full_name : Option String
  clone_url : Option String
  ssh_url : Option String
deriving Repr, DecidableEq

/-- Parsed JSON of a 422 response: top-level message and the message field
of each entry of the errors list. -/
structure ValidationData where
  message : Option String
  errors : List (Option String)
deriving Repr, DecidableEq

inductive CRResp where
  | created (d : RepoCreated)
  | validation (d : ValidationData)
  | forbidden
  | unauthorized
  | otherStatus (status : Nat) (message : Option String)
  | netError (e : String)
  | unexpected (e : String)
deriving Repr, DecidableEq

/-- The result string of create_repo (lines 58-100). -/
def crResult (repo_name description : String) (is_private : Bool) (resp : CRResp) : String :=
  match resp with
  | CRResp.created d =>
    let privacy := if is_private then "private" else "public"
    "Successfully created " ++ privacy ++ " repository!\n- Repository: "
      ++ d.full_name.getD ""
      ++ "\n- Description: " ++ (if description = "" then "No description" else description)
      ++ "\n- URL: " ++ d.html_url.getD ""
      ++ "\n- Clone (HTTPS): " ++ d.clone_url.getD ""
      ++ "\n- Clone (SSH): " ++ d.ssh_url.getD ""
      ++ "\n- Initialized with README: Yes"
  | CRResp.validation d =>
    match d.errors with
    | some "name already exists on this account" :: _ =>
      "Error: A repository named \x27" ++ repo_name
        ++ "\x27 already exists in your account. Please choose a different name."
    | _ =>
      "Error: " ++ d.message.getD "Validation failed"
        ++ ". Please check the repository name and try again."
  | CRResp.forbidden =>
    "Error: You don\x27t have permission to create repositories. This might be due to account limitations or rate limits."
  | CRResp.unauthorized => "Error: Authentication failed. Please check your access token."
  | CRResp.otherStatus status message =>
    "Error creating repository: " ++ message.getD "Unknown error"
      ++ " (Status: " ++ toString status ++ ")"
  | CRResp.netError e => "Error connecting to GitHub API: " ++ e
  | CRResp.unexpected e => "Unexpected error while creating repository: " ++ e

/-- create_repo (lines 7-109): the record output is appended with no
truncation (lines 102-107). -/
def create_repo (ctx : Ctx) (repo_name description : String) (is_private : Bool)
    (resp : CRResp) : Ctx × String :=
  let tool_input := ToolInput.dict
    [("repo_name", PyVal.str repo_name), ("description", PyVal.str description),
     ("is_private", PyVal.bool is_private)]
  let result := crResult repo_name description is_private resp
  (track ctx "create_repo" tool_input result, result)

/-! get_pr_diff (src/tools/get_pr_diff.py). -/

/-- Parsed JSON of a 200 pulls response, keys read with .get defaults;
user_login models the nested get("user", {}).get("login"). -/
structure PRData where
  title : Option String
  user_login : Option String
  head_ref : Option String
  base_ref : Option String
  state : Option String
  body : Option String
deriving Repr, DecidableEq

/-- One entry of the pulls files response. -/
structure PRFile where
  filename : Option String
  status : Option String
  additions : Option Nat
  deletions : Option Nat
  changes : Option Nat
  patch : Option String
deriving Repr, DecidableEq

/-- The remote interaction of one get_pr_diff call: the two requests of the
source collapse to which branch was taken. -/
inductive GPDResp where
  | prNotFound
  | prError (status : Nat) (message : Option String)
  | filesError (message : Option String)
  | ok (pr : PRData) (files : List PRFile)
  | netError (e : String)
  | unexpected (e : String)
deriving Repr, DecidableEq

/-- The per-file block of the formatting loop (lines 108-135). -/
def prFileLines (f : PRFile) : List String :=
  let status := f.status.getD "modified"
  let status_emoji :=
    if status = "added" then "🆕"
    else if status = "removed" then "🗑️"
    else if status = "modified" then "✏️"
    else if status = "renamed" then "📝"
    else "📄"
  let patch := f.patch.getD ""
  ["\n" ++ status_emoji ++ " " ++ f.filename.getD "Unknown" ++ " (" ++ status ++ ")",
   "   +" ++ toString (f.additions.getD 0) ++ " -" ++ toString (f.deletions.getD 0)
     ++ " (~" ++ toString (f.changes.getD 0) ++ " changes)"]
  ++ (if patch ≠ "" then ["\nDiff:", "```diff", patch, "```"]
      else ["   (Binary file or no diff available)"])
  ++ ["\n" ++ repChar '-' 80]

/-- The main-path result of get_pr_diff (lines 96-139). -/
def gpdOkResult (pr_number : Int) (pr : PRData) (files : List PRFile) : String :=
  let header :=
    ["Pull Request #" ++ toString pr_number ++ ": " ++ pr.title.getD "No title",
     "Author: @" ++ pr.user_login.getD "Unknown",
     "Branch: " ++ pr.head_ref.getD "?" ++ " → " ++ pr.base_ref.getD "?",
     "Status: " ++ asciiUpper (pr.state.getD "unknown"),
     "Description: " ++ pr.body.getD "No description provided",
     "\n" ++ repChar '=' 80,
     "Files Changed: " ++ toString files.length,
     repChar '=' 80 ++ "\n"]
  let total := "\n\nTotal Changes: +" ++ toString ((files.map (fun f => f.additions.getD 0)).sum)
    ++ " -" ++ toString ((files.map (fun f => f.deletions.getD 0)).sum)
  String.intercalate "\n" (header ++ files.flatMap prFileLines ++ [total])

/-- get_pr_diff (lines 7-153).  The two early error branches append their
record with the output untruncated (lines 60-64 and 87-91) and return; the
remaining branches reach the final append, which truncates at 1000
characters plus an ellipsis (lines 147-151). -/
def get_pr_diff (ctx : Ctx) (repo_name : String) (pr_number : Int) (resp : GPDResp) :
    Ctx × String :=
  let p := splitOwnerRepo ctx.github_username repo_name
  let full_repo_name := p.1 ++ "/" ++ p.2
  let tool_input := ToolInput.dict
    [("repo_name", PyVal.str full_repo_name), ("pr_number", PyVal.int pr_number)]
  match resp with
  | GPDResp.prNotFound =>
    let result := "Error: Pull request #" ++ toString pr_number ++ " not found in \x27"
      ++ full_repo_name ++ "\x27."
    (track ctx "get_pr_diff" tool_input result, result)
  | GPDResp.prError status message =>
    let result := "Error fetching PR: " ++ message.getD "Unknown error"
      ++ " (Status: " ++ toString status ++ ")"
    (track ctx "get_pr_diff" tool_input result, result)
  | GPDResp.filesError message =>
    let result := "Error fetching PR files: " ++ message.getD "Unknown error"
    (track ctx "get_pr_diff" tool_input result, result)
  | GPDResp.ok pr files =>
    let result := gpdOkResult pr_number pr files
    (track ctx "get_pr_diff" tool_input (pyTruncate 1000 result), result)
  | GPDResp.netError e =>
    let result := "Error connecting to GitHub API: " ++ e
    (track ctx "get_pr_diff" tool_input (pyTruncate 1000 result), result)
  | GPDResp.unexpected e =>
    let result := "Unexpected error while fetching PR diff: " ++ e
    (track ctx "get_pr_diff" tool_input (pyTruncate 1000 result), result)

/-! list_repo_files (src/tools/list_repo_files.py). -/

/-- One item of a 200 directory listing. -/
structure LRFItem where
  name : Option String
  type_ : Option String
  size : Option Nat
deriving Repr, DecidableEq

/-- The remote interaction of one list_repo_files call once the request at
line 65 is issued. -/
inductive LRFResp where
  | okFile (name type_ : Option String) (size : Option Nat) (path durl : Option String)
  | okList (items : List LRFItem)
  | okOther
  | notFound
  | forbidden
  | unauthorized
  | otherStatus (status : Nat) (message : Option String)
  | valueErr (e : String)
  | netError (e : String)
  | unexpected (e : String)
deriving Repr, DecidableEq

/-- The guard message of lines 44-49, built over the cached key list with
enumerate(..., 1). -/
def lrfGuardMessage (full_repo_name : String) (keys : List String) : String :=
  "❌ Repository \x27" ++ full_repo_name
    ++ "\x27 not found in cached repositories.\n\nYou have " ++ toString keys.length
    ++ " cached repositories:\n"
    ++ String.join (keys.enum.map (fun q => toString (q.1 + 1) ++ ". " ++ q.2 ++ "\n"))

/-- The directory-listing body of lines 88-121. -/
def lrfListResult (owner repo path : String) (items : List LRFItem) : String :=
  if items = [] then
    "The directory \x27" ++ (if path = "" then "root" else path) ++ "\x27 in "
      ++ owner ++ "/" ++ repo ++ " is empty."
  else
    let directories := items.filter (fun i => i.type_ == some "dir")
    let files := items.filter (fun i => i.type_ == some "file")
    let dirLines :=
      if directories ≠ [] then
        "📁 Directories:" :: directories.map (fun i => "  - " ++ i.name.getD "Unknown" ++ "/")
      else []
    let fileLines :=
      if files ≠ [] then
        "\n📄 Files:" :: files.map (fun i =>
          "  - " ++ i.name.getD "Unknown" ++ " (" ++ size_str (i.size.getD 0) ++ ")")
      else []
    String.intercalate "\n"
      ((("Contents of \x27" ++ (if path = "" then "root" else path) ++ "\x27 in "
          ++ owner ++ "/" ++ repo ++ ":\n") :: dirLines) ++ fileLines
        ++ ["\nTotal: " ++ toString directories.length ++ " directories, "
            ++ toString files.length ++ " files"])

/-- The post-request result string of lines 76-143. -/
def lrfResult (owner repo path : String) (resp : LRFResp) : String :=
  match resp with
  | LRFResp.okFile name type_ size p durl =>
    "File: " ++ name.getD "Unknown"
      ++ "\n- Type: " ++ type_.getD "file"
      ++ "\n- Size: " ++ toString (size.getD 0) ++ " bytes"
      ++ "\n- Path: " ++ p.getD ""
      ++ "\n- Download URL: " ++ durl.getD "N/A"
  | LRFResp.okList items => lrfListResult owner repo path items
  | LRFResp.okOther => "Unexpected response format from GitHub API"
  | LRFResp.notFound =>
    "Error: Repository \x27" ++ owner ++ "/" ++ repo ++ "\x27 or path \x27" ++ path
      ++ "\x27 not found."
  | LRFResp.forbidden =>
    "Error: You don\x27t have permission to access \x27" ++ owner ++ "/" ++ repo
      ++ "\x27. The repository might be private."
  | LRFResp.unauthorized => "Error: Authentication failed. Please check your access token."
  | LRFResp.otherStatus status message =>
    "Error listing repository contents: " ++ message.getD "Unknown error"
      ++ " (Status: " ++ toString status ++ ")"
  | LRFResp.valueErr e => "Error: Invalid repository name format. " ++ e
  | LRFResp.netError e => "Error connecting to GitHub API: " ++ e
  | LRFResp.unexpected e => "Unexpected error while listing repository files: " ++ e

/-- list_repo_files (lines 7-152).  The third component records whether the
remote API request of line 65 was issued, which the source does not return
but which the cache-guard property is about: the guard branch of lines
39-58 returns before any request. -/
def list_repo_files (ctx : Ctx) (repo_name path : String) (resp : LRFResp) :
    Ctx × String × Bool :=
  let p := splitOwnerRepo ctx.github_username repo_name
  let full_repo_name := p.1 ++ "/" ++ p.2
  let tool_input := ToolInput.dict
    [("repo_name", PyVal.str full_repo_name),
     ("path", PyVal.str (if path = "" then "root" else path))]
  let rb : String × Bool :=
    if ctx.repos_cache ≠ [] ∧ alookup full_repo_name ctx.repos_cache = none then
      let cached_repo_names := ctx.repos_cache.map (fun q => q.1)
      (lrfGuardMessage full_repo_name cached_repo_names, false)
    else
      (lrfResult p.1 p.2 path resp, true)
  (track ctx "list_repo_files" tool_input rb.1, rb.1, rb.2)

/-! get_repo_info (src/tools/get_repo_info.py), wired into the PR agent
(pr_agent.py), which config.py exposes to the main agent as a tool sharing
the same Session Context.  It returns a dict and never touches
tool_executions on any path. -/

/-- The parsed JSON of a 200 repository response, keys read with the
source's .get defaults. -/
structure GRIData where
  full_name : Option String
  fork : Bool
  parent_full_name : Option String
  parent_owner_login : Option String
  parent_name : Option String
  parent_html_url : Option String
  source_full_name : Option String
  source_owner_login : Option String
  source_name : Option String
deriving Repr, DecidableEq

inductive GRIResp where
  | ok (d : GRIData)
  | errorStatus
  | exn (e : String)
deriving Repr, DecidableEq

structure ParentInfo where
  full_name : Option String
  owner : Option String
  name : Option String
  url : Option String
deriving Repr, DecidableEq

structure SourceInfo where
  full_name : Option String
  owner : Option String
  name : Option String
deriving Repr, DecidableEq

/-- The dict returned by get_repo_info: repo info or an error entry. -/
inductive RepoInfoResult where
  | info (full_name : Option String) (is_fork : Bool)
      (parent : Option ParentInfo) (source : Option SourceInfo)
  | failure (error_text : String)
deriving Repr, DecidableEq

/-- get_repo_info (lines 7-72): the Session Context is returned untouched —
no Execution Record is appended on success, non-200 status or exception. -/
def get_repo_info (ctx : Ctx) (repo_name : String) (resp : GRIResp) :
    Ctx × RepoInfoResult :=
  let p := splitOwnerRepo ctx.github_username repo_name
  (ctx,
   match resp with
   | GRIResp.ok d =>
     if d.fork then
       RepoInfoResult.info d.full_name true
         (some ⟨d.parent_full_name, d.parent_owner_login, d.parent_name, d.parent_html_url⟩)
         (some ⟨d.source_full_name, d.source_owner_login, d.source_name⟩)
     else RepoInfoResult.info d.full_name false none none
   | GRIResp.errorStatus =>
     RepoInfoResult.failure ("Repository not found: " ++ p.1 ++ "/" ++ p.2)
   | GRIResp.exn e => RepoInfoResult.failure e)

/-! review_pull_request (src/tools/review_pull_request.py), wired into the
PR-review agent. -/

inductive RPRResp where
  | ok (review_id : Option Int)
  | notFound
  | validation (message : Option String)
  | forbidden
  | otherStatus (status : Nat) (message : Option String)
  | netError (e : String)
  | unexpected (e : String)
deriving Repr, DecidableEq

/-- The post-request result string of lines 78-110; event2 is the
upper-cased event. -/
def rprResult (full_repo_name : String) (pr_number : Int) (event2 body : String)
    (resp : RPRResp) : String :=
  match resp with
  | RPRResp.ok review_id =>
    let event_msg :=
      if event2 = "APPROVE" then "✅ Approved"
      else if event2 = "REQUEST_CHANGES" then "🔄 Requested changes"
      else if event2 = "COMMENT" then "💬 Commented"
      else event2
    event_msg ++ " PR #" ++ toString pr_number ++ " in \x27" ++ full_repo_name ++ "\x27\n"
      ++ "Review ID: " ++ pyFmtOptInt review_id ++ "\n"
      ++ (if body ≠ "" then "Feedback: " ++ body else "")
  | RPRResp.notFound =>
    "Error: Pull request #" ++ toString pr_number ++ " not found in \x27"
      ++ full_repo_name ++ "\x27."
  | RPRResp.validation m =>
    "Error: " ++ m.getD "Validation failed"
      ++ ". You may have already reviewed this PR or you\x27re the PR author."
  | RPRResp.forbidden => "Error: You don\x27t have permission to review this PR."
  | RPRResp.otherStatus s m =>
    "Error submitting review: " ++ m.getD "Unknown error"
      ++ " (Status: " ++ toString s ++ ")"
  | RPRResp.netError e => "Error connecting to GitHub API: " ++ e
  | RPRResp.unexpected e => "Unexpected error while submitting review: " ++ e

/-- Whether a review_pull_request call passes both validation guards of
lines 39-47 and therefore reaches the append of lines 113-117. -/
def rprAppends (event body : String) : Bool :=
  (["APPROVE", "REQUEST_CHANGES", "COMMENT"].contains (asciiUpper event))
    && !(asciiUpper event == "REQUEST_CHANGES" && body == "")

/-- review_pull_request (lines 7-119): the two early validation returns
(lines 41 and 47) append no Execution Record; every other path appends
exactly one, with the output untruncated. -/
def review_pull_request (ctx : Ctx) (repo_name : String) (pr_number : Int)
    (event body : String) (resp : RPRResp) : Ctx × String :=
  let p := splitOwnerRepo ctx.github_username repo_name
  let full_repo_name := p.1 ++ "/" ++ p.2
  if (["APPROVE", "REQUEST_CHANGES", "COMMENT"].contains (asciiUpper event)) = false then
    (ctx, "Error: Invalid review event \x27" ++ event
      ++ "\x27. Must be one of: APPROVE, REQUEST_CHANGES, COMMENT")
  else if (asciiUpper event == "REQUEST_CHANGES" && body == "") = true then
    (ctx, "Error: Review body is required when requesting changes.")
  else
    let event2 := asciiUpper event
    let tool_input := ToolInput.dict
      [("repo_name", PyVal.str full_repo_name), ("pr_number", PyVal.int pr_number),
       ("event", PyVal.str event2), ("body", PyVal.str body)]
    let result := rprResult full_repo_name pr_number event2 body resp
    (track ctx "review_pull_request" tool_input result, result)

/-! create_branch (src/tools/create_branch.py). -/

/-- The remote interaction: the ref lookup (non-200 collapses to refError),
then the create call. -/
inductive CBResp where
  | refError
  | created (source_sha : String)
  | branchExists
  | otherStatus (status : Nat) (message : Option String)
  | netError (e : String)
  | unexpected (e : String)
deriving Repr, DecidableEq

def cbResult (owner repo full_repo_name branch_name from_branch : String)
    (resp : CBResp) : String :=
  match resp with
  | CBResp.refError =>
    "Error: Source branch \x27" ++ from_branch ++ "\x27 not found in repository \x27"
      ++ full_repo_name ++ "\x27."
  | CBResp.created source_sha =>
    "Successfully created branch!\n- Branch: " ++ branch_name
      ++ "\n- Repository: " ++ full_repo_name
      ++ "\n- Created from: " ++ from_branch
      ++ "\n- SHA: " ++ String.mk (source_sha.data.take 7)
      ++ "\n- URL: https://github.com/" ++ owner ++ "/" ++ repo ++ "/tree/" ++ branch_name
      ++ "\n\nYou can now work on this branch locally:\n  git fetch origin\n  git checkout "
      ++ branch_name
  | CBResp.branchExists =>
    "Error: Branch \x27" ++ branch_name ++ "\x27 already exists in repository \x27"
      ++ full_repo_name ++ "\x27."
  | CBResp.otherStatus s m =>
    "Error creating branch: " ++ m.getD "Unknown error" ++ " (Status: " ++ toString s ++ ")"
  | CBResp.netError e => "Error connecting to GitHub API: " ++ e
  | CBResp.unexpected e => "Unexpected error while creating branch: " ++ e

/-- create_branch (lines 7-111): one record, output truncated to a plain
500 characters (line 108, no ellipsis). -/
def create_branch (ctx : Ctx) (repo_name branch_name from_branch : String)
    (resp : CBResp) : Ctx × String :=
  let p := splitOwnerRepo ctx.github_username repo_name
  let full_repo_name := p.1 ++ "/" ++ p.2
  let tool_input := ToolInput.dict
    [("repo_name", PyVal.str full_repo_name), ("branch_name", PyVal.str branch_name),
     ("from_branch", PyVal.str from_branch)]
  let result := cbResult p.1 p.2 full_repo_name branch_name from_branch resp
  (track ctx "create_branch" tool_input (pyTruncatePlain 500 result), result)

/-! create_pull_request (src/tools/create_pull_request.py). -/

/-- Classification of the 422 error list (lines 105-115): the two known
conflict signatures found by the substring scans, or the pass-through case
carrying the raw message and the rendered errors list. -/
inductive CPR422 where
  | alreadyExists
  | noCommits
  | otherValidation (message : Option String) (errors_repr : String)
deriving Repr, DecidableEq

inductive CPRResp where
  | created (number : Option Int) (html_url : Option String) (draft_flag : Bool)
  | validation (kind : CPR422)
  | notFound
  | forbidden
  | otherStatus (status : Nat) (message : Option String)
  | netError (e : String)
  | unexpected (e : String)
deriving Repr, DecidableEq

/-- The head value of lines 57-66: "owner:branch" for a cross-repository
pull request (owner taken before the first slash of head_repo), the bare
branch otherwise. -/
def cprHeadValue (head_repo : Option String) (head_branch : String) : String :=
  if truthyOpt head_repo then
    let hr := head_repo.getD ""
    let head_owner :=
      if hr.data.contains '/' then String.mk (breakAtSlash hr.data).1 else hr
    head_owner ++ ":" ++ head_branch
  else head_branch

def cprResult (full_repo_name title head_value base_branch : String)
    (resp : CPRResp) : String :=
  match resp with
  | CPRResp.created number html_url draft_flag =>
    "Successfully created pull request!\n- PR #" ++ pyFmtOptInt number ++ ": " ++ title
      ++ "\n- Repository: " ++ full_repo_name
      ++ "\n- From: " ++ head_value ++ " → " ++ base_branch
      ++ "\n- Status: " ++ (if draft_flag then "Draft" else "Open")
      ++ "\n- URL: " ++ pyFmtOptStr html_url
      ++ "\n\nYour pull request is ready for review!"
  | CPRResp.validation CPR422.alreadyExists =>
    "Error: A pull request already exists for " ++ head_value ++ " → " ++ base_branch ++ "."
  | CPRResp.validation CPR422.noCommits =>
    "Error: No commits found between " ++ base_branch ++ " and " ++ head_value
      ++ ". The branches are identical."
  | CPRResp.validation (CPR422.otherValidation m errors_repr) =>
    "Error: " ++ m.getD "Validation failed" ++ ". " ++ errors_repr
  | CPRResp.notFound =>
    "Error: Repository \x27" ++ full_repo_name
      ++ "\x27 or branch not found. Make sure both \x27" ++ head_value ++ "\x27 and \x27"
      ++ base_branch ++ "\x27 exist."
  | CPRResp.forbidden =>
    "Error: You don\x27t have permission to create pull requests in \x27"
      ++ full_repo_name ++ "\x27."
  | CPRResp.otherStatus s m =>
    "Error creating pull request: " ++ m.getD "Unknown error"
      ++ " (Status: " ++ toString s ++ ")"
  | CPRResp.netError e => "Error connecting to GitHub API: " ++ e
  | CPRResp.unexpected e => "Unexpected error while creating pull request: " ++ e

/-- create_pull_request (lines 7-139): one record, output truncated to a
plain 500 characters (line 136). -/
def create_pull_request (ctx : Ctx) (repo_name title head_branch base_branch
    description : String) (draft : Bool) (head_repo : Option String)
    (resp : CPRResp) : Ctx × String :=
  let p := splitOwnerRepo ctx.github_username repo_name
  let full_repo_name := p.1 ++ "/" ++ p.2
  let tool_input := ToolInput.dict
    [("repo_name", PyVal.str full_repo_name), ("title", PyVal.str title),
     ("head_branch", PyVal.str head_branch), ("base_branch", PyVal.str base_branch)]
  let head_value := cprHeadValue head_repo head_branch
  let result := cprResult full_repo_name title head_value base_branch resp
  (track ctx "create_pull_request" tool_input (pyTruncatePlain 500 result), result)

/-! delete_repo (src/tools/delete_repo.py). -/

inductive DRResp where
  | deleted
  | notFound
  | forbidden
  | unauthorized
  | otherStatus (status : Nat) (message : Option String)
  | valueErr (e : String)
  | netError (e : String)
  | unexpected (e : String)
deriving Repr, DecidableEq

def drResult (owner repo : String) (resp : DRResp) : String :=
  match resp with
  | DRResp.deleted =>
    "Successfully deleted repository!\n- Repository: " ++ owner ++ "/" ++ repo
      ++ "\n- Status: Permanently deleted\n- Note: This action cannot be undone"
  | DRResp.notFound =>
    "Error: Repository \x27" ++ owner ++ "/" ++ repo
      ++ "\x27 not found. Please check the repository name and try again."
  | DRResp.forbidden =>
    "Error: You don\x27t have permission to delete \x27" ++ owner ++ "/" ++ repo
      ++ "\x27. You must be the owner of the repository to delete it."
  | DRResp.unauthorized => "Error: Authentication failed. Please check your access token."
  | DRResp.otherStatus s m =>
    "Error deleting repository \x27" ++ owner ++ "/" ++ repo ++ "\x27: "
      ++ m.getD "Unknown error" ++ " (Status: " ++ toString s ++ ")"
  | DRResp.valueErr e =>
    "Error: Invalid repository name format. Use \x27owner/repo\x27 or just \x27repo\x27. " ++ e
  | DRResp.netError e => "Error connecting to GitHub API: " ++ e
  | DRResp.unexpected e => "Unexpected error while deleting repository: " ++ e

/-- delete_repo (lines 7-84): one record, output untruncated (line 81). -/
def delete_repo (ctx : Ctx) (repo_name : String) (resp : DRResp) : Ctx × String :=
  let tool_input := ToolInput.dict [("repo_name", PyVal.str repo_name)]
  let p := splitOwnerRepo ctx.github_username repo_name
  let result := drResult p.1 p.2 resp
  (track ctx "delete_repo" tool_input result, result)

/-! fork_repo (src/tools/fork_repo.py). -/

inductive FRResp where
  | forked (html_url full_name : Option String)
  | forbidden
  | notFound
  | otherStatus (status : Nat) (message : Option String)
  | netError (e : String)
  | unexpected (e : String)
deriving Repr, DecidableEq

/-- The URL parsing of fork_repo.py lines 27-41: owner and repo are the
last two slash-separated pieces of a full URL after trailing slashes are
stripped, or the two pieces of an owner/repo pair; every ".git" occurrence
is then removed from the repo piece. -/
def frParseRepoUrl (repo_url : String) : Except String (String × String) :=
  if listStartsWith "http".data repo_url.data then
    match (splitSlash (rstripSlash repo_url.data)).reverse with
    | r :: o :: _ => Except.ok (String.mk o, String.mk (replaceDotGit r))
    | _ => Except.error "Invalid repository URL format"
  else
    match splitSlash repo_url.data with
    | [o, r] => Except.ok (String.mk o, String.mk (replaceDotGit r))
    | _ => Except.error "Invalid repository format. Use \x27owner/repo\x27 or full GitHub URL"

def frResult (owner repo : String) (resp : FRResp) : String :=
  match resp with
  | FRResp.forked html_url full_name =>
    "Successfully forked repository!\n- Original: " ++ owner ++ "/" ++ repo
      ++ "\n- Forked to: " ++ full_name.getD ""
      ++ "\n- URL: " ++ html_url.getD ""
      ++ "\n- Status: Fork is being created (this may take a few moments)"
  | FRResp.forbidden =>
    "Error: You don\x27t have permission to fork " ++ owner ++ "/" ++ repo
      ++ ". The repository might be private or you may have reached the fork limit."
  | FRResp.notFound =>
    "Error: Repository " ++ owner ++ "/" ++ repo
      ++ " not found. Please check the repository name and try again."
  | FRResp.otherStatus s m =>
    "Error forking repository " ++ owner ++ "/" ++ repo ++ ": "
      ++ m.getD "Unknown error" ++ " (Status: " ++ toString s ++ ")"
  | FRResp.netError e => "Error connecting to GitHub API: " ++ e
  | FRResp.unexpected e => "Unexpected error while forking repository: " ++ e

/-- fork_repo (lines 7-94): a parse failure becomes the ValueError message
and no request is made; one record either way, output untruncated. -/
def fork_repo (ctx : Ctx) (repo_url : String) (resp : FRResp) : Ctx × String :=
  let tool_input := ToolInput.dict [("repo_url", PyVal.str repo_url)]
  let result :=
    match frParseRepoUrl repo_url with
    | Except.error e => "Error: " ++ e
    | Except.ok p => frResult p.1 p.2 resp
  (track ctx "fork_repo" tool_input result, result)

/-! get_user_info (src/agents/fetch_context.py). -/

/-- get_user_info (lines 10-34): reads only the Session Context identity
fields, makes no remote call, appends one record with the output
untruncated. -/
def get_user_info (ctx : Ctx) : Ctx × String :=
  let tool_input := ToolInput.dict [("requested_by", PyVal.str ctx.github_username)]
  let info := "User Information:\n- GitHub Username: " ++ ctx.github_username
    ++ "\n- GitHub Name: " ++ pyOrStr ctx.github_name "Not provided"
    ++ "\n- GitHub ID: " ++ toString ctx.github_id
    ++ "\n- Session ID: " ++ pyFmtOptStr ctx.session_id
    ++ "\n- Request Timestamp: " ++ ctx.timestamp
  (track ctx "get_user_info" tool_input info, info)

/-! list_branches (src/tools/list_branches.py). -/

/-- One branch of the listing; commit_sha is the composed
get("commit", {}).get("sha", "") default. -/
structure BranchItem where
  name : Option String
  commit_sha : String
  protectedFlag : Bool
deriving Repr, DecidableEq

inductive LBResp where
  | okList (branches : List BranchItem)
  | notFound
  | forbidden
  | otherStatus (status : Nat) (message : Option String)
  | netError (e : String)
  | unexpected (e : String)
deriving Repr, DecidableEq

def lbResult (full_repo_name : String) (resp : LBResp) : String :=
  match resp with
  | LBResp.okList branches =>
    if branches = [] then
      "No branches found in repository \x27" ++ full_repo_name ++ "\x27."
    else
      String.intercalate "\n"
        ((("Branches in " ++ full_repo_name ++ ":\n")
          :: branches.map (fun b =>
            "  • " ++ b.name.getD "Unknown" ++ " ("
              ++ String.mk (b.commit_sha.data.take 7) ++ ") "
              ++ (if b.protectedFlag then "🔒 Protected" else "")))
          ++ ["\nTotal branches: " ++ toString branches.length])
  | LBResp.notFound => "Error: Repository \x27" ++ full_repo_name ++ "\x27 not found."
  | LBResp.forbidden =>
    "Error: You don\x27t have permission to access \x27" ++ full_repo_name ++ "\x27."
  | LBResp.otherStatus s m =>
    "Error listing branches: " ++ m.getD "Unknown error"
      ++ " (Status: " ++ toString s ++ ")"
  | LBResp.netError e => "Error connecting to GitHub API: " ++ e
  | LBResp.unexpected e => "Unexpected error while listing branches: " ++ e

/-- list_branches (lines 7-88): one record, output truncated to a plain
500 characters (line 85). -/
def list_branches (ctx : Ctx) (repo_name : String) (resp : LBResp) : Ctx × String :=
  let p := splitOwnerRepo ctx.github_username repo_name
  let full_repo_name := p.1 ++ "/" ++ p.2
  let tool_input := ToolInput.dict [("repo_name", PyVal.str full_repo_name)]
  let result := lbResult full_repo_name resp
  (track ctx "list_branches" tool_input (pyTruncatePlain 500 result), result)

/-! list_pull_requests (src/tools/list_pull_requests.py). -/

structure PRListItem where
  number : Option Int
  title : Option String
  user_login : Option String
  head_ref : Option String
  base_ref : Option String
  draft : Bool
  html_url : Option String
  state : Option String
  merged : Bool
deriving Repr, DecidableEq

inductive LPRResp where
  | okList (prs : List PRListItem)
  | notFound
  | forbidden
  | otherStatus (status : Nat) (message : Option String)
  | netError (e : String)
  | unexpected (e : String)
deriving Repr, DecidableEq

/-- The status tag of lines 80-82. -/
def lprStatus (pr : PRListItem) : String :=
  if pr.state = some "closed" then
    if pr.merged then "🔀 Merged" else "❌ Closed"
  else if pr.draft then "📝 Draft" else "✅ Open"

/-- The per-PR block of lines 84-88 (the f-string carries a trailing
newline). -/
def lprBlock (pr : PRListItem) : String :=
  "  #" ++ pyFmtOptInt pr.number ++ " " ++ lprStatus pr ++ " - " ++ pr.title.getD "No title"
    ++ "\n    By: @" ++ pr.user_login.getD "Unknown"
    ++ "\n    " ++ pr.head_ref.getD "?" ++ " → " ++ pr.base_ref.getD "?"
    ++ "\n    URL: " ++ pr.html_url.getD ""
    ++ "\n"

def lprResult (full_repo_name state2 : String) (resp : LPRResp) : String :=
  match resp with
  | LPRResp.okList prs =>
    if prs = [] then
      "No " ++ state2 ++ " pull requests found in \x27" ++ full_repo_name ++ "\x27."
    else
      String.intercalate "\n"
        (((pyCapitalize state2 ++ " Pull Requests in " ++ full_repo_name ++ ":\n")
          :: prs.map lprBlock)
          ++ ["Total: " ++ toString prs.length ++ " pull request(s)"])
  | LPRResp.notFound => "Error: Repository \x27" ++ full_repo_name ++ "\x27 not found."
  | LPRResp.forbidden =>
    "Error: You don\x27t have permission to access \x27" ++ full_repo_name ++ "\x27."
  | LPRResp.otherStatus s m =>
    "Error listing pull requests: " ++ m.getD "Unknown error"
      ++ " (Status: " ++ toString s ++ ")"
  | LPRResp.netError e => "Error connecting to GitHub API: " ++ e
  | LPRResp.unexpected e => "Unexpected error while listing pull requests: " ++ e

/-- list_pull_requests (lines 7-115): an unknown state falls back to open
(lines 35-36); one record, output truncated to a plain 500 characters
(line 112). -/
def list_pull_requests (ctx : Ctx) (repo_name state : String) (resp : LPRResp) :
    Ctx × String :=
  let p := splitOwnerRepo ctx.github_username repo_name
  let full_repo_name := p.1 ++ "/" ++ p.2
  let state2 := if ["open", "closed", "all"].contains state then state else "open"
  let tool_input := ToolInput.dict
    [("repo_name", PyVal.str full_repo_name), ("state", PyVal.str state2)]
  let result := lprResult full_repo_name state2 resp
  (track ctx "list_pull_requests" tool_input (pyTruncatePlain 500 result), result)

/-! list_repos (src/tools/list_repos.py). -/

structure RepoListItem where
  name : Option String
  full_name : Option String
  description : Option String
  stargazers_count : Option Nat
  forks_count : Option Nat
  language : Option String
  private_flag : Bool
  html_url : Option String
  updated_at : Option String
deriving Repr, DecidableEq

inductive LRResp where
  | okList (repos : List RepoListItem)
  | notFound
  | forbidden
  | otherStatus (status : Nat) (message : Option String)
  | netError (e : String)
  | unexpected (e : String)
deriving Repr, DecidableEq

/-- The per-repository block of lines 83-88, with enumerate(repos, 1). -/
def lrBlock (q : Nat × RepoListItem) : String :=
  let r := q.2
  "\n" ++ toString (q.1 + 1) ++ ". " ++ r.full_name.getD "" ++ " ("
    ++ (if r.private_flag then "🔒 Private" else "🌐 Public") ++ ")"
    ++ "\n   Description: " ++ r.description.getD "No description"
    ++ "\n   Language: " ++ r.language.getD "N/A" ++ " | ⭐ "
    ++ toString (r.stargazers_count.getD 0) ++ " | 🍴 " ++ toString (r.forks_count.getD 0)
    ++ "\n   URL: " ++ r.html_url.getD ""
    ++ "\n   Last updated: " ++ r.updated_at.getD ""

def lrResult (target_user : String) (resp : LRResp) : String :=
  match resp with
  | LRResp.okList repos =>
    if repos = [] then "No repositories found for user \x27" ++ target_user ++ "\x27"
    else
      String.intercalate "\n"
        (("Found " ++ toString repos.length ++ " repositories for \x27" ++ target_user
            ++ "\x27:\n")
          :: repos.enum.map lrBlock)
  | LRResp.notFound => "Error: User \x27" ++ target_user ++ "\x27 not found on GitHub"
  | LRResp.forbidden => "Error: API rate limit exceeded or insufficient permissions"
  | LRResp.otherStatus s m =>
    "Error fetching repositories: " ++ m.getD "Unknown error"
      ++ " (Status: " ++ toString s ++ ")"
  | LRResp.netError e => "Error connecting to GitHub API: " ++ e
  | LRResp.unexpected e => "Unexpected error while fetching repositories: " ++ e

/-- list_repos (lines 7-114): target_user is always the authenticated
username (the username local equals it, so the authenticated-user endpoint
branch is always taken); tool_input is None (line 27) and the output is
appended untruncated (line 111). -/
def list_repos (ctx : Ctx) (resp : LRResp) : Ctx × String :=
  let result := lrResult ctx.github_username resp
  (track ctx "list_repos" ToolInput.nullInput result, result)

/-! merge_pull_request (src/tools/merge_pull_request.py). -/

inductive MPRResp where
  | ok (merged : Bool) (sha : String) (message : String)
  | notMergeable
  | notFound
  | forbidden
  | conflict
  | otherStatus (status : Nat) (message : Option String)
  | netError (e : String)
  | unexpected (e : String)
deriving Repr, DecidableEq

def mprResult (full_repo_name : String) (pull_number : Int) (merge_method2 : String)
    (resp : MPRResp) : String :=
  match resp with
  | MPRResp.ok merged sha message =>
    if merged then
      "Successfully merged pull request!\n- PR #" ++ toString pull_number ++ " in "
        ++ full_repo_name
        ++ "\n- Merge method: " ++ merge_method2
        ++ "\n- Commit SHA: " ++ String.mk (sha.data.take 7)
        ++ "\n- Message: " ++ message
        ++ "\n\nThe pull request has been merged into the base branch."
    else
      "Error: Pull request #" ++ toString pull_number ++ " could not be merged. " ++ message
  | MPRResp.notMergeable =>
    "Error: Pull request #" ++ toString pull_number
      ++ " is not mergeable. It may have conflicts or required checks are failing."
  | MPRResp.notFound =>
    "Error: Pull request #" ++ toString pull_number ++ " not found in repository \x27"
      ++ full_repo_name ++ "\x27."
  | MPRResp.forbidden =>
    "Error: You don\x27t have permission to merge pull requests in \x27"
      ++ full_repo_name ++ "\x27."
  | MPRResp.conflict =>
    "Error: Pull request #" ++ toString pull_number
      ++ " has a merge conflict. Resolve conflicts before merging."
  | MPRResp.otherStatus s m =>
    "Error merging pull request: " ++ m.getD "Unknown error"
      ++ " (Status: " ++ toString s ++ ")"
  | MPRResp.netError e => "Error connecting to GitHub API: " ++ e
  | MPRResp.unexpected e => "Unexpected error while merging pull request: " ++ e

/-- merge_pull_request (lines 7-121): an unknown merge method falls back to
merge (lines 41-43); one record, output truncated to a plain 500 characters
(line 118). -/
def merge_pull_request (ctx : Ctx) (repo_name : String) (pull_number : Int)
    (merge_method commit_title commit_message : String) (resp : MPRResp) :
    Ctx × String :=
  let p := splitOwnerRepo ctx.github_username repo_name
  let full_repo_name := p.1 ++ "/" ++ p.2
  let merge_method2 :=
    if ["merge", "squash", "rebase"].contains merge_method then merge_method else "merge"
  let tool_input := ToolInput.dict
    [("repo_name", PyVal.str full_repo_name), ("pull_number", PyVal.int pull_number),
     ("merge_method", PyVal.str merge_method2)]
  let result := mprResult full_repo_name pull_number merge_method2 resp
  (track ctx "merge_pull_request" tool_input (pyTruncatePlain 500 result), result)

/-! Conversation store (src/database/database.py).  PostgreSQL state is the
pair of the two tables; psycopg2 failures are injected through explicit
failure points.  The db.sql schema file is not part of src/, so the table
constraints are modelled from the spec where the claims need them. -/

/-- The assistant_output JSON persisted with a turn: the tool_responses
mapping built in main.py lines 103-106 plus the final response. -/
structure AssistantOut where
  tools_responses : List (String × ToolRecord)
  final_assistant_response : String
deriving Repr, DecidableEq

/-- The per-turn summary merged into session_chat.history
(database.py lines 109-113). -/
structure HistEntry where
  timestamp : String
  user_query : String
  assistant_output : AssistantOut
deriving Repr, DecidableEq

/-- One row of the conversation table. -/
structure ConvRow where
  conv_id : String
  session_id : String
  timestamp : String
  user_query : String
  assistant_output : AssistantOut
deriving Repr, DecidableEq

/-- One row of the session_chat table. -/
structure SessionRow where
  session_id : String
  username : String
  created_at : String
  updated_at : String
  history : List (String × HistEntry)
deriving Repr, DecidableEq

structure DBState where
  conversation : List ConvRow
  session_chat : List SessionRow
deriving Repr, DecidableEq

/-- jsonb `history || {conv_id: data}`: object concatenation, the right
operand overwriting an equal key. -/
def jsonbMerge (h : List (String × HistEntry)) (k : String) (v : HistEntry) :
    List (String × HistEntry) :=
  h.filter (fun q => q.1 ≠ k) ++ [(k, v)]

/-- Failure injection points inside save_conversation: acquiring the pooled
connection, the INSERT, the UPDATE, or the COMMIT.  Anything raised after
BEGIN reaches the except branch, which rolls the transaction back and
re-raises (lines 129-134). -/
inductive FailAt where
  | noFail
  | getconn
  | insert
  | update
  | commit
deriving Repr, DecidableEq

/-- create_session (lines 277-311): INSERT ... ON CONFLICT DO NOTHING; a
conflict is not an error.  created_at and updated_at take the server
default, passed in as now. -/
def create_session (st : DBState) (pool : Bool) (session_id username now : String) :
    DBState × Bool :=
  if pool = false then (st, false)
  else if (st.session_chat.find? (fun r => r.session_id == session_id)).isSome then
    (st, true)
  else
    ({ st with session_chat := st.session_chat ++ [⟨session_id, username, now, now, []⟩] },
     true)

/-- save_conversation (lines 65-134).  Both writes run between BEGIN and
COMMIT; any raise rolls the transaction back, leaves the state unchanged and
surfaces the error.  The generated conv_id is passed in as new_conv_id.
Modelled from the spec: the db.sql schema is not under src/; per the spec
data model a Conversation Turn always carries a session_id, so the INSERT
rejects an absent one (a NOT NULL violation), which the except branch turns
into a rollback plus re-raise. -/
def save_conversation (st : DBState) (pool : Bool) (fail : FailAt)
    (session_id : Option String) (user_query : String) (assistant_output : AssistantOut)
    (timestamp : Option String) (now new_conv_id : String) :
    DBState × Except String String :=
  if pool = false then (st, Except.error "Database not initialized")
  else
    let ts := timestamp.getD now
    match fail with
    | FailAt.getconn => (st, Except.error "NameError: conn referenced before assignment")
    | FailAt.insert => (st, Except.error "insert failed")
    | _ =>
      match session_id with
      | none => (st, Except.error "null value in column session_id of relation conversation")
      | some sid =>
        match fail with
        | FailAt.update => (st, Except.error "update failed")
        | FailAt.commit => (st, Except.error "commit failed")
        | _ =>
          ({ conversation := st.conversation ++ [⟨new_conv_id, sid, ts, user_query, assistant_output⟩]
             session_chat := st.session_chat.map (fun r =>
               if r.session_id = sid then
                 { r with history := jsonbMerge r.history new_conv_id ⟨ts, user_query, assistant_output⟩
                          updated_at := ts }
               else r) },
           Except.ok new_conv_id)

/-- The persistence portion of process_agent_query (main.py lines 70-121):
ensure the session exists when a session_id was supplied, then save the
turn.  save_conversation is called whether or not a session_id is present. -/
def persist_turn (st : DBState) (pool : Bool) (fail : FailAt)
    (session_id : Option String) (username user_query : String)
    (assistant_output : AssistantOut) (timestamp : Option String)
    (now new_conv_id : String) : DBState × Except String String :=
  let st1 :=
    if truthyOpt session_id then (create_session st pool (session_id.getD "") username now).1
    else st
  save_conversation st1 pool fail session_id user_query assistant_output timestamp
    now new_conv_id

/-- Environment of the read paths: whether the pool is initialized, whether
acquiring a connection raises, whether anything after acquisition raises,
and the durable state the query runs against. -/
structure ReadEnv where
  pool : Bool
  getconnFails : Bool
  queryFails : Bool
  db : DBState
deriving Repr, DecidableEq

/-- get_session_history (lines 193-230).  When the pool is missing the
function returns the empty dict (lines 204-206); when a failure occurs after
a connection was acquired, the except branch returns the empty dict (lines
226-230); but when getconn itself raises, the handler evaluates the unbound
local conn (line 228) and the resulting NameError propagates. -/
def get_session_history (env : ReadEnv) (session_id : String) :
    Except String (List (String × HistEntry)) :=
  if env.pool = false then Except.ok []
  else if env.getconnFails then
    Except.error "NameError: conn referenced before assignment"
  else if env.queryFails then Except.ok []
  else
    match env.db.session_chat.find? (fun r => r.session_id == session_id) with
    | some row => if row.history ≠ [] then Except.ok row.history else Except.ok []
    | none => Except.ok []

/-- get_conversations_by_session (lines 137-190), same control flow as
get_session_history around its query; the query is SELECT ... WHERE
session_id ORDER BY timestamp ASC LIMIT, and the formatting loop copies the
row fields (the stored timestamp string is returned as is). -/
def get_conversations_by_session (env : ReadEnv) (session_id : String) (limit : Nat) :
    Except String (List ConvRow) :=
  if env.pool = false then Except.ok []
  else if env.getconnFails then
    Except.error "NameError: conn referenced before assignment"
  else if env.queryFails then Except.ok []
  else
    Except.ok
      ((List.insertionSort (fun a b : ConvRow => pyLe a.timestamp b.timestamp)
        (env.db.conversation.filter (fun r => r.session_id == session_id))).take limit)

/-! History replay (src/agents/get_chat_history.py) and the turn wiring of
src/agents/main.py. -/

/-- Python repr of a string value.  Escaping of special characters inside
the string is not modelled; no claim depends on it. -/
def pyReprStr (s : String) : String := "\x27" ++ s ++ "\x27"

def pyValRepr : PyVal → String
  | PyVal.str s => pyReprStr s
  | PyVal.int n => toString n
  | PyVal.bool b => if b then "True" else "False"

/-- Python repr of a dict whose values are already rendered. -/
def pyReprKVs (l : List (String × String)) : String :=
  "\x7b" ++ String.intercalate ", " (l.map (fun q => pyReprStr q.1 ++ ": " ++ q.2)) ++ "\x7d"

def pyReprToolInput : ToolInput → String
  | ToolInput.dict kvs => pyReprKVs (kvs.map (fun q => (q.1, pyValRepr q.2)))
  | ToolInput.nullInput => "None"

def pyReprRecord (r : ToolRecord) : String :=
  pyReprKVs [("tool_name", pyReprStr r.tool_name),
             ("input", pyReprToolInput r.input),
             ("output", pyReprStr r.output)]

/-- Rendering of the tools_responses mapping inside the f-string of
get_chat_history.py line 46.  Key order of the jsonb round trip is taken to
be the stored order; no claim depends on it. -/
def pyReprToolsMap (l : List (String × ToolRecord)) : String :=
  pyReprKVs (l.map (fun q => (q.1, pyReprRecord q.2)))

/-- One replayed turn block (lines 43-47): timestamp line, user line,
tool-responses line, assistant line, blank separator. -/
def renderBlock (q : String × HistEntry) : String :=
  "[" ++ q.2.timestamp ++ "]\n"
    ++ "User: " ++ q.2.user_query ++ "\n"
    ++ "Tools_Responses: " ++ pyReprToolsMap q.2.assistant_output.tools_responses ++ "\n"
    ++ "Assistant: " ++ q.2.assistant_output.final_assistant_response ++ "\n\n"

/-- Ordering used at line 30: sorted(history.items(), key=timestamp), a
stable sort on the timestamp string only. -/
def histLe (a b : String × HistEntry) : Prop := pyLe a.2.timestamp b.2.timestamp

instance : DecidableRel histLe := fun a b => by unfold histLe; infer_instance

/-- The formatting loop of lines 29-51 applied to a non-empty history. -/
def formatHistory (history : List (String × HistEntry)) : String :=
  let sorted_conversations := List.insertionSort histLe history
  (sorted_conversations.foldl (fun acc q => acc ++ renderBlock q)
      "\n[Previous Conversation]\n")
    ++ "[End of Previous Conversation]\n\n"

/-- fetch_chat_history (lines 8-51): empty string for a falsy session_id or
an empty history, otherwise the formatted replay; a raise from the store
read propagates. -/
def fetch_chat_history (env : ReadEnv) (session_id : Option String) :
    Except String String :=
  if truthyOpt session_id = false then Except.ok ""
  else
    match get_session_history env (session_id.getD "") with
    | Except.error e => Except.error e
    | Except.ok history =>
      if history = [] then Except.ok ""
      else Except.ok (formatHistory history)

/-- main.py line 93: the current query appended after the replayed
history. -/
def mkFullQuery (history_context user_query : String) : String :=
  history_context ++ "[Current Query]\n" ++ user_query

/-- main.py lines 102-106: the tool_responses mapping keyed by
"tool_" + ordinal over the audit trail, in trail order. -/
def buildToolsResponses (execs : List ToolRecord) : List (String × ToolRecord) :=
  execs.enum.map (fun q => ("tool_" ++ toString q.1, q.2))

/-! One agent turn as a sequence of tool invocations against the Session
Context (the orchestration loop is external; what matters is that each
invocation runs one of the embedded tools). -/

inductive ToolCall where
  | fileContent (repo_name file_path : String) (resp : GFCResp)
  | repoCreate (repo_name description : String) (is_private : Bool) (resp : CRResp)
  | prDiff (repo_name : String) (pr_number : Int) (resp : GPDResp)
  | filesList (repo_name path : String) (resp : LRFResp)
  | structureCache (repo_name : Option String) (treeOf : String → RepoTree)
      (listResp : CRSRemote)
  | branchCreate (repo_name branch_name from_branch : String) (resp : CBResp)
  | prCreate (repo_name title head_branch base_branch description : String)
      (draft : Bool) (head_repo : Option String) (resp : CPRResp)
  | repoDelete (repo_name : String) (resp : DRResp)
  | repoFork (repo_url : String) (resp : FRResp)
  | userInfo
  | branchesList (repo_name : String) (resp : LBResp)
  | prList (repo_name state : String) (resp : LPRResp)
  | reposList (resp : LRResp)
  | prMerge (repo_name : String) (pull_number : Int)
      (merge_method commit_title commit_message : String) (resp : MPRResp)
  | repoInfo (repo_name : String) (resp : GRIResp)
  | prReview (repo_name : String) (pr_number : Int) (event body : String) (resp : RPRResp)

def runTool (ctx : Ctx) : ToolCall → Ctx
  | ToolCall.fileContent rn fp resp => (get_file_content ctx rn fp resp).1
  | ToolCall.repoCreate rn d priv resp => (create_repo ctx rn d priv resp).1
  | ToolCall.prDiff rn n resp => (get_pr_diff ctx rn n resp).1
  | ToolCall.filesList rn p resp => (list_repo_files ctx rn p resp).1
  | ToolCall.structureCache rn treeOf listResp => (cache_repo_structure ctx rn treeOf listResp).1
  | ToolCall.branchCreate rn bn fb resp => (create_branch ctx rn bn fb resp).1
  | ToolCall.prCreate rn t hb bb d df hr resp => (create_pull_request ctx rn t hb bb d df hr resp).1
  | ToolCall.repoDelete rn resp => (delete_repo ctx rn resp).1
  | ToolCall.repoFork u resp => (fork_repo ctx u resp).1
  | ToolCall.userInfo => (get_user_info ctx).1
  | ToolCall.branchesList rn resp => (list_branches ctx rn resp).1
  | ToolCall.prList rn st resp => (list_pull_requests ctx rn st resp).1
  | ToolCall.reposList resp => (list_repos ctx resp).1
  | ToolCall.prMerge rn n mm ct cm resp => (merge_pull_request ctx rn n mm ct cm resp).1
  | ToolCall.repoInfo rn resp => (get_repo_info ctx rn resp).1
  | ToolCall.prReview rn n ev bd resp => (review_pull_request ctx rn n ev bd resp).1

/-- Whether one invocation reaches an Execution Record append: every tool
does except get_repo_info (which never appends) and review_pull_request
when one of its early validation guards rejects the call. -/
def appendsRecord : ToolCall → Bool
  | ToolCall.repoInfo _ _ => false
  | ToolCall.prReview _ _ event body _ => rprAppends event body
  | _ => true

def runTurn (ctx : Ctx) : List ToolCall → Ctx
  | [] => ctx
  | c :: cs => runTurn (runTool ctx c) cs

/-- Concatenation of rendered history blocks, the shape the formatting
loop of fetch_chat_history produces over the sorted conversation list. -/
def joinBlocks : List (String × HistEntry) → String
  | [] => ""
  | q :: rest => renderBlock q ++ joinBlocks rest

/-- A concrete snapshot used by witness scenarios: alice/repo1 holding
README.md and src/main.go. -/
def demoSnap : RepoSnapshot :=
  ⟨"alice", "repo1", "alice/repo1", 2, 1,
    [fileEntry "README.md" "README.md" 10 "u", dirEntry "src" "src",
     fileEntry "main.go" "src/main.go" 20 "u2"], "T0"⟩

/-- A concrete Session Context with demoSnap cached. -/
def demoCtx : Ctx := mkCtx "bob" "tok" "T0" [] [("alice/repo1", demoSnap)]

/-- A concrete Session Context with an empty cache. -/
def emptyCtx : Ctx := mkCtx "bob" "tok" "T0" [] []

/-! Facts about the embedding primitives. -/

theorem strLtB_irrefl : ∀ x, strLtB x x = false := by
  intro x
  induction x with
  | nil => rfl
  | cons a as ih => simp [strLtB, ih]

theorem strLtB_trans : ∀ x y z, strLtB x y = true → strLtB y z = true → strLtB x z = true := by
  intro x
  induction x with
  | nil =>
    intro y z hxy hyz
    cases y with
    | nil => simp [strLtB] at hxy
    | cons b bs =>
      cases z with
      | nil => simp [strLtB] at hyz
      | cons c cs => simp [strLtB]
  | cons a as ih =>
    intro y z hxy hyz
    cases y with
    | nil => simp [strLtB] at hxy
    | cons b bs =>
      cases z with
      | nil => simp [strLtB] at hyz
      | cons c cs =>
        simp only [strLtB] at hxy hyz ⊢
        rcases lt_trichotomy a b with hab | rfl | hab
        · rcases lt_trichotomy b c with hbc | rfl | hbc
          · simp [lt_trans hab hbc]
          · simp [hab]
          · rw [if_neg (lt_asymm hbc), if_pos hbc] at hyz
            exact absurd hyz (by simp)
        · rw [if_neg (lt_irrefl a), if_neg (lt_irrefl a)] at hxy
          rcases lt_trichotomy a c with hac | rfl | hac
          · simp [hac]
          · rw [if_neg (lt_irrefl a), if_neg (lt_irrefl a)] at hyz ⊢
            exact ih bs cs hxy hyz
          · rw [if_neg (lt_asymm hac), if_pos hac] at hyz
            exact absurd hyz (by simp)
        · rw [if_neg (lt_asymm hab), if_pos hab] at hxy
          exact absurd hxy (by simp)

theorem strLtB_asymm : ∀ x y, strLtB x y = true → strLtB y x = false := by
  intro x y hxy
  cases hyx : strLtB y x with
  | false => rfl
  | true =>
    have := strLtB_trans x y x hxy hyx
    simp [strLtB_irrefl] at this

theorem strLtB_total_of_ne : ∀ x y, strLtB x y = false → strLtB y x = false → x = y := by
  intro x
  induction x with
  | nil =>
    intro y hxy _
    cases y with
    | nil => rfl
    | cons b bs => simp [strLtB] at hxy
  | cons a as ih =>
    intro y hxy hyx
    cases y with
    | nil => simp [strLtB] at hyx
    | cons b bs =>
      simp only [strLtB] at hxy hyx
      rcases lt_trichotomy a b with hab | rfl | hab
      · rw [if_pos hab] at hxy
        exact absurd hxy (by simp)
      · rw [if_neg (lt_irrefl a), if_neg (lt_irrefl a)] at hxy
        rw [if_neg (lt_irrefl a), if_neg (lt_irrefl a)] at hyx
        rw [ih bs hxy hyx]
      · rw [if_pos hab] at hyx
        exact absurd hyx (by simp)

theorem pyLe_total : ∀ a b : String, pyLe a b ∨ pyLe b a := by
  intro a b
  unfold pyLe
  cases h : strLtB b.data a.data with
  | false => exact Or.inl rfl
  | true => exact Or.inr (strLtB_asymm _ _ h)

theorem pyLe_trans : ∀ a b c : String, pyLe a b → pyLe b c → pyLe a c := by
  intro a b c hab hbc
  unfold pyLe at *
  cases h : strLtB c.data a.data with
  | false => rfl
  | true =>
    exfalso
    cases h4 : strLtB b.data c.data with
    | true =>
      have hba := strLtB_trans _ _ _ h4 h
      rw [hab] at hba
      exact Bool.false_ne_true hba
    | false =>
      have heq := strLtB_total_of_ne b.data c.data h4 hbc
      rw [← heq] at h
      rw [hab] at h
      exact Bool.false_ne_true h

theorem alookup_aset {α : Type} (k : String) (v : α) :
    ∀ l : List (String × α), alookup k (aset k v l) = some v := by
  intro l
  induction l with
  | nil => simp [aset, alookup]
  | cons p rest ih =>
    by_cases h : p.1 = k
    · simp [aset, h, alookup]
    · simp only [aset]
      rw [if_neg (by exact h)]
      simp [alookup, h, ih]

theorem pyTruncate_length_le (cap : Nat) (s : String) :
    (pyTruncate cap s).length ≤ cap + 3 := by
  unfold pyTruncate
  split
  · rw [String.length_append]
    have h1 : (String.mk (s.data.take cap)).length = min cap s.data.length := by
      show (s.data.take cap).length = _
      exact List.length_take _ _
    have h2 : ("..." : String).length = 3 := rfl
    rw [h1, h2]
    have := Nat.min_le_left cap s.data.length
    omega
  · rename_i h
    have : s.length ≤ cap := Nat.le_of_not_lt h
    omega

theorem pyTruncate_of_le (cap : Nat) (s : String) (h : s.length ≤ cap) :
    pyTruncate cap s = s := by
  unfold pyTruncate
  rw [if_neg (by omega)]

theorem track_trail (ctx : Ctx) (name : String) (input : ToolInput)
    (output : String) :
    (track ctx name input output).tool_executions
      = ctx.tool_executions ++ [⟨name, input, output⟩] := rfl

theorem fetchItems_append (l1 l2 : List RItem) :
    fetchItems (l1 ++ l2) = fetchItems l1 ++ fetchItems l2 := by
  induction l1 with
  | nil => simp [fetchItems]
  | cons i rest ih =>
    cases i with
    | file n p s u => simp [fetchItems, ih]
    | dir n p sub =>
      cases sub with
      | none => simp [fetchItems, ih]
      | some l => simp [fetchItems, ih]
    | other => simp [fetchItems, ih]

theorem alookup_jsonbMerge (h : List (String × HistEntry)) (k : String) (v : HistEntry) :
    alookup k (jsonbMerge h k v) = some v := by
  unfold jsonbMerge
  induction h with
  | nil => simp [alookup]
  | cons q rest ih =>
    simp only [List.filter_cons]
    by_cases hq : q.1 = k
    · rw [if_neg (by simp [hq])]
      exact ih
    · rw [if_pos (by simp [hq])]
      simp only [List.cons_append, alookup]
      rw [if_neg hq]
      exact ih

/-! Helper lemmas: every embedded tool appends exactly one Execution Record
on every path. -/

theorem get_file_content_trail (ctx : Ctx) (rn fp : String) (resp : GFCResp) :
    ∃ rec : ToolRecord,
      (get_file_content ctx rn fp resp).1.tool_executions = ctx.tool_executions ++ [rec]
        ∧ rec.tool_name = "get_file_content"
        ∧ rec.output = pyTruncate 500 ((get_file_content ctx rn fp resp).2) := by
  exact ⟨_, rfl, rfl, rfl⟩

theorem create_repo_trail (ctx : Ctx) (rn d : String) (priv : Bool) (resp : CRResp) :
    ∃ rec : ToolRecord,
      (create_repo ctx rn d priv resp).1.tool_executions = ctx.tool_executions ++ [rec]
        ∧ rec.tool_name = "create_repo"
        ∧ rec.output = (create_repo ctx rn d priv resp).2 := by
  exact ⟨_, rfl, rfl, rfl⟩

theorem get_pr_diff_trail (ctx : Ctx) (rn : String) (n : Int) (resp : GPDResp) :
    ∃ rec : ToolRecord,
      (get_pr_diff ctx rn n resp).1.tool_executions = ctx.tool_executions ++ [rec]
        ∧ rec.tool_name = "get_pr_diff" := by
  cases resp <;> exact ⟨_, rfl, rfl⟩

theorem list_repo_files_trail (ctx : Ctx) (rn p : String) (resp : LRFResp) :
    ∃ rec : ToolRecord,
      (list_repo_files ctx rn p resp).1.tool_executions = ctx.tool_executions ++ [rec]
        ∧ rec.tool_name = "list_repo_files" := by
  exact ⟨_, rfl, rfl⟩

theorem cache_repo_structure_trail (ctx : Ctx) (rn : Option String)
    (treeOf : String → RepoTree) (listResp : CRSRemote) :
    ∃ rec : ToolRecord,
      (cache_repo_structure ctx rn treeOf listResp).1.tool_executions
          = ctx.tool_executions ++ [rec]
        ∧ rec.tool_name = "cache_repo_structure" := by
  exact ⟨_, rfl, rfl⟩

theorem pyTruncatePlain_length_le (cap : Nat) (s : String) :
    (pyTruncatePlain cap s).length ≤ cap := by
  unfold pyTruncatePlain
  split
  · have h1 : (String.mk (s.data.take cap)).length = min cap s.data.length := by
      show (s.data.take cap).length = _
      exact List.length_take _ _
    rw [h1]
    exact Nat.min_le_left _ _
  · rename_i h
    exact Nat.le_of_not_lt h

theorem create_branch_trail (ctx : Ctx) (rn bn fb : String) (resp : CBResp) :
    ∃ rec : ToolRecord,
      (create_branch ctx rn bn fb resp).1.tool_executions = ctx.tool_executions ++ [rec]
        ∧ rec.tool_name = "create_branch"
        ∧ rec.output = pyTruncatePlain 500 ((create_branch ctx rn bn fb resp).2) := by
  exact ⟨_, rfl, rfl, rfl⟩

theorem create_pull_request_trail (ctx : Ctx) (rn t hb bb d : String) (df : Bool)
    (hr : Option String) (resp : CPRResp) :
    ∃ rec : ToolRecord,
      (create_pull_request ctx rn t hb bb d df hr resp).1.tool_executions
          = ctx.tool_executions ++ [rec]
        ∧ rec.tool_name = "create_pull_request"
        ∧ rec.output = pyTruncatePlain 500 ((create_pull_request ctx rn t hb bb d df hr resp).2) := by
  exact ⟨_, rfl, rfl, rfl⟩

theorem delete_repo_trail (ctx : Ctx) (rn : String) (resp : DRResp) :
    ∃ rec : ToolRecord,
      (delete_repo ctx rn resp).1.tool_executions = ctx.tool_executions ++ [rec]
        ∧ rec.tool_name = "delete_repo"
        ∧ rec.output = (delete_repo ctx rn resp).2 := by
  exact ⟨_, rfl, rfl, rfl⟩

theorem fork_repo_trail (ctx : Ctx) (u : String) (resp : FRResp) :
    ∃ rec : ToolRecord,
      (fork_repo ctx u resp).1.tool_executions = ctx.tool_executions ++ [rec]
        ∧ rec.tool_name = "fork_repo"
        ∧ rec.output = (fork_repo ctx u resp).2 := by
  exact ⟨_, rfl, rfl, rfl⟩

theorem get_user_info_trail (ctx : Ctx) :
    ∃ rec : ToolRecord,
      (get_user_info ctx).1.tool_executions = ctx.tool_executions ++ [rec]
        ∧ rec.tool_name = "get_user_info"
        ∧ rec.output = (get_user_info ctx).2 := by
  exact ⟨_, rfl, rfl, rfl⟩

theorem list_branches_trail (ctx : Ctx) (rn : String) (resp : LBResp) :
    ∃ rec : ToolRecord,
      (list_branches ctx rn resp).1.tool_executions = ctx.tool_executions ++ [rec]
        ∧ rec.tool_name = "list_branches"
        ∧ rec.output = pyTruncatePlain 500 ((list_branches ctx rn resp).2) := by
  exact ⟨_, rfl, rfl, rfl⟩

theorem list_pull_requests_trail (ctx : Ctx) (rn st : String) (resp : LPRResp) :
    ∃ rec : ToolRecord,
      (list_pull_requests ctx rn st resp).1.tool_executions = ctx.tool_executions ++ [rec]
        ∧ rec.tool_name = "list_pull_requests"
        ∧ rec.output = pyTruncatePlain 500 ((list_pull_requests ctx rn st resp).2) := by
  exact ⟨_, rfl, rfl, rfl⟩

theorem list_repos_trail (ctx : Ctx) (resp : LRResp) :
    ∃ rec : ToolRecord,
      (list_repos ctx resp).1.tool_executions = ctx.tool_executions ++ [rec]
        ∧ rec.tool_name = "list_repos"
        ∧ rec.input = ToolInput.nullInput
        ∧ rec.output = (list_repos ctx resp).2 := by
  exact ⟨_, rfl, rfl, rfl, rfl⟩

theorem merge_pull_request_trail (ctx : Ctx) (rn : String) (n : Int)
    (mm ct cm : String) (resp : MPRResp) :
    ∃ rec : ToolRecord,
      (merge_pull_request ctx rn n mm ct cm resp).1.tool_executions
          = ctx.tool_executions ++ [rec]
        ∧ rec.tool_name = "merge_pull_request"
        ∧ rec.output = pyTruncatePlain 500 ((merge_pull_request ctx rn n mm ct cm resp).2) := by
  exact ⟨_, rfl, rfl, rfl⟩

theorem get_repo_info_ctx (ctx : Ctx) (rn : String) (resp : GRIResp) :
    (get_repo_info ctx rn resp).1 = ctx := rfl

theorem review_pull_request_trail (ctx : Ctx) (rn : String) (n : Int)
    (event body : String) (resp : RPRResp) :
    (rprAppends event body = false → (review_pull_request ctx rn n event body resp).1 = ctx)
  ∧ (rprAppends event body = true → ∃ rec : ToolRecord,
      (review_pull_request ctx rn n event body resp).1.tool_executions
          = ctx.tool_executions ++ [rec]
        ∧ rec.tool_name = "review_pull_request"
        ∧ rec.output = (review_pull_request ctx rn n event body resp).2) := by
  by_cases hc : (["APPROVE", "REQUEST_CHANGES", "COMMENT"].contains (asciiUpper event)) = false
  · have ha : rprAppends event body = false := by
      unfold rprAppends
      rw [hc]
      simp
    constructor
    · intro _
      simp only [review_pull_request]
      rw [if_pos hc]
    · intro h
      rw [ha] at h
      exact absurd h (by simp)
  · by_cases hb : (asciiUpper event == "REQUEST_CHANGES" && body == "") = true
    · have ha : rprAppends event body = false := by
        simp only [rprAppends]
        rw [hb]
        simp
      constructor
      · intro _
        simp only [review_pull_request]
        rw [if_neg hc, if_pos hb]
      · intro h
        rw [ha] at h
        exact absurd h (by simp)
    · constructor
      · intro h
        exfalso
        have hc2 : (["APPROVE", "REQUEST_CHANGES", "COMMENT"].contains (asciiUpper event))
            = true := by
          cases hx : (["APPROVE", "REQUEST_CHANGES", "COMMENT"].contains (asciiUpper event)) with
          | false => exact absurd hx hc
          | true => rfl
        have hb2 : (asciiUpper event == "REQUEST_CHANGES" && body == "") = false := by
          cases hx : (asciiUpper event == "REQUEST_CHANGES" && body == "") with
          | false => rfl
          | true => exact absurd hx hb
        rw [rprAppends, hc2, hb2] at h
        exact absurd h (by simp)
      · intro _
        simp only [review_pull_request]
        rw [if_neg hc, if_neg hb]
        exact ⟨_, rfl, rfl, rfl⟩

theorem runTool_trail (ctx : Ctx) (c : ToolCall) :
    (appendsRecord c = true → ∃ rec : ToolRecord,
        (runTool ctx c).tool_executions = ctx.tool_executions ++ [rec])
  ∧ (appendsRecord c = false → (runTool ctx c).tool_executions = ctx.tool_executions) := by
  cases c with
  | fileContent rn fp resp =>
    refine ⟨fun _ => ?_, fun h => by simp [appendsRecord] at h⟩
    obtain ⟨rec, h, -⟩ := get_file_content_trail ctx rn fp resp
    exact ⟨rec, h⟩
  | repoCreate rn d priv resp =>
    refine ⟨fun _ => ?_, fun h => by simp [appendsRecord] at h⟩
    obtain ⟨rec, h, -⟩ := create_repo_trail ctx rn d priv resp
    exact ⟨rec, h⟩
  | prDiff rn n resp =>
    refine ⟨fun _ => ?_, fun h => by simp [appendsRecord] at h⟩
    obtain ⟨rec, h, -⟩ := get_pr_diff_trail ctx rn n resp
    exact ⟨rec, h⟩
  | filesList rn p resp =>
    refine ⟨fun _ => ?_, fun h => by simp [appendsRecord] at h⟩
    obtain ⟨rec, h, -⟩ := list_repo_files_trail ctx rn p resp
    exact ⟨rec, h⟩
  | structureCache rn treeOf listResp =>
    refine ⟨fun _ => ?_, fun h => by simp [appendsRecord] at h⟩
    obtain ⟨rec, h, -⟩ := cache_repo_structure_trail ctx rn treeOf listResp
    exact ⟨rec, h⟩
  | branchCreate rn bn fb resp =>
    refine ⟨fun _ => ?_, fun h => by simp [appendsRecord] at h⟩
    obtain ⟨rec, h, -⟩ := create_branch_trail ctx rn bn fb resp
    exact ⟨rec, h⟩
  | prCreate rn t hb bb d df hr resp =>
    refine ⟨fun _ => ?_, fun h => by simp [appendsRecord] at h⟩
    obtain ⟨rec, h, -⟩ := create_pull_request_trail ctx rn t hb bb d df hr resp
    exact ⟨rec, h⟩
  | repoDelete rn resp =>
    refine ⟨fun _ => ?_, fun h => by simp [appendsRecord] at h⟩
    obtain ⟨rec, h, -⟩ := delete_repo_trail ctx rn resp
    exact ⟨rec, h⟩
  | repoFork u resp =>
    refine ⟨fun _ => ?_, fun h => by simp [appendsRecord] at h⟩
    obtain ⟨rec, h, -⟩ := fork_repo_trail ctx u resp
    exact ⟨rec, h⟩
  | userInfo =>
    refine ⟨fun _ => ?_, fun h => by simp [appendsRecord] at h⟩
    obtain ⟨rec, h, -⟩ := get_user_info_trail ctx
    exact ⟨rec, h⟩
  | branchesList rn resp =>
    refine ⟨fun _ => ?_, fun h => by simp [appendsRecord] at h⟩
    obtain ⟨rec, h, -⟩ := list_branches_trail ctx rn resp
    exact ⟨rec, h⟩
  | prList rn st resp =>
    refine ⟨fun _ => ?_, fun h => by simp [appendsRecord] at h⟩
    obtain ⟨rec, h, -⟩ := list_pull_requests_trail ctx rn st resp
    exact ⟨rec, h⟩
  | reposList resp =>
    refine ⟨fun _ => ?_, fun h => by simp [appendsRecord] at h⟩
    obtain ⟨rec, h, -⟩ := list_repos_trail ctx resp
    exact ⟨rec, h⟩
  | prMerge rn n mm ct cm resp =>
    refine ⟨fun _ => ?_, fun h => by simp [appendsRecord] at h⟩
    obtain ⟨rec, h, -⟩ := merge_pull_request_trail ctx rn n mm ct cm resp
    exact ⟨rec, h⟩
  | repoInfo rn resp =>
    refine ⟨fun h => by simp [appendsRecord] at h, fun _ => ?_⟩
    show (get_repo_info ctx rn resp).1.tool_executions = ctx.tool_executions
    rw [get_repo_info_ctx]
  | prReview rn n ev bd resp =>
    constructor
    · intro h
      obtain ⟨rec, hrec, -⟩ := (review_pull_request_trail ctx rn n ev bd resp).2 h
      exact ⟨rec, hrec⟩
    · intro h
      have h2 := (review_pull_request_trail ctx rn n ev bd resp).1 h
      show (review_pull_request ctx rn n ev bd resp).1.tool_executions = _
      rw [h2]

theorem runTurn_trail (calls : List ToolCall) : ∀ ctx : Ctx,
    ∃ recs : List ToolRecord,
      (runTurn ctx calls).tool_executions = ctx.tool_executions ++ recs
        ∧ recs.length = calls.countP appendsRecord := by
  induction calls with
  | nil => intro ctx; exact ⟨[], by simp [runTurn], by simp⟩
  | cons c cs ih =>
    intro ctx
    obtain ⟨recs, hrecs, hlen⟩ := ih (runTool ctx c)
    cases ha : appendsRecord c with
    | true =>
      obtain ⟨rec, hrec⟩ := (runTool_trail ctx c).1 ha
      refine ⟨rec :: recs, ?_, ?_⟩
      · show (runTurn (runTool ctx c) cs).tool_executions = _
        rw [hrecs, hrec, List.append_assoc]
        rfl
      · rw [List.countP_cons]
        simp [ha, hlen]
    | false =>
      have hrec := (runTool_trail ctx c).2 ha
      refine ⟨recs, ?_, ?_⟩
      · show (runTurn (runTool ctx c) cs).tool_executions = _
        rw [hrecs, hrec]
      · rw [List.countP_cons]
        simp [ha, hlen]

theorem runTurn_append (l1 l2 : List ToolCall) : ∀ ctx : Ctx,
    runTurn ctx (l1 ++ l2) = runTurn (runTurn ctx l1) l2 := by
  induction l1 with
  | nil => intro ctx; rfl
  | cons c cs ih => intro ctx; exact ih (runTool ctx c)

theorem buildToolsResponses_fst (l : List ToolRecord) :
    (buildToolsResponses l).map Prod.fst
      = (List.range l.length).map (fun i => "tool_" ++ toString i) := by
  unfold buildToolsResponses
  rw [List.map_map]
  have h : (Prod.fst ∘ fun q : Nat × ToolRecord => ("tool_" ++ toString q.1, q.2))
      = (fun i => "tool_" ++ toString i) ∘ Prod.fst := rfl
  rw [h, ← List.map_map, List.enum_map_fst]

theorem buildToolsResponses_snd (l : List ToolRecord) :
    (buildToolsResponses l).map Prod.snd = l := by
  unfold buildToolsResponses
  rw [List.map_map]
  have h : (Prod.snd ∘ fun q : Nat × ToolRecord => ("tool_" ++ toString q.1, q.2))
      = @Prod.snd Nat ToolRecord := rfl
  rw [h, List.enum_map_snd]

/-- C7: during the recursive repository-tree fetch, a failed listing at any
level silently truncates that subtree: siblings discovered around the
failing directory are kept, the failing branch contributes only its own
directory entry and nothing below it, and the fetch returns a plain list on
every input (a failed root yields the empty result) instead of raising. -/
theorem fetch_failure_truncates :
    (∀ pre n p post, fetchItems (pre ++ RItem.dir n p none :: post)
        = fetchItems pre ++ dirEntry n p :: fetchItems post)
      ∧ fetch_repo_tree_recursive none = []
      ∧ (∀ items, fetch_repo_tree_recursive (some items) = fetchItems items) := by
  refine ⟨?_, rfl, fun _ => rfl⟩
  intro pre n p post
  rw [fetchItems_append]
  simp [fetchItems]

/-- C6: after cache_repo_structure completes for a repository, the stored
snapshot has file_count equal to the number of entries of kind file and
dir_count equal to the number of entries of kind dir, for every shape of
the fetched tree. -/
theorem snapshot_counts (ctx : Ctx) (rn : String) (treeOf : String → RepoTree)
    (listResp : CRSRemote) (h : rn ≠ "") :
    ∃ snap : RepoSnapshot,
      alookup ((splitOwnerRepo ctx.github_username rn).1 ++ "/"
            ++ (splitOwnerRepo ctx.github_username rn).2)
          ((cache_repo_structure ctx (some rn) treeOf listResp).1).repos_cache = some snap
        ∧ snap.file_count = snap.files.countP (fun e => e.kind == EKind.file)
        ∧ snap.dir_count = snap.files.countP (fun e => e.kind == EKind.dir)
        ∧ snap.files = fetch_repo_tree_recursive
            (treeOf ((splitOwnerRepo ctx.github_username rn).1 ++ "/"
              ++ (splitOwnerRepo ctx.github_username rn).2)) := by
  have ht : truthyOpt (some rn) = true := by simp [truthyOpt, h]
  simp only [cache_repo_structure, ht, if_true, Option.getD_some, cacheAll]
  refine ⟨_, alookup_aset _ _ _, ?_, ?_, rfl⟩
  · simp [mkSnapshot, List.countP_eq_length_filter]
  · simp [mkSnapshot, List.countP_eq_length_filter]

/-- C6 witness: one concrete zero-depth situation and one of depth three,
via the universally quantified tree oracle of the theorem. -/
theorem snapshot_counts_witness :
    (("repo1" : String) ≠ "" ∧ ∃ snap : RepoSnapshot,
      alookup ((splitOwnerRepo "alice" "repo1").1 ++ "/" ++ (splitOwnerRepo "alice" "repo1").2)
          ((cache_repo_structure (mkCtx "alice" "tok" "T0" [] []) (some "repo1")
            (fun _ => some [RItem.file "README.md" "README.md" 10 "u"])
            (CRSRemote.ok [])).1).repos_cache = some snap
        ∧ snap.file_count = snap.files.countP (fun e => e.kind == EKind.file)
        ∧ snap.dir_count = snap.files.countP (fun e => e.kind == EKind.dir)
        ∧ snap.files = fetch_repo_tree_recursive
            ((fun _ : String => some [RItem.file "README.md" "README.md" 10 "u"])
              ((splitOwnerRepo "alice" "repo1").1 ++ "/" ++ (splitOwnerRepo "alice" "repo1").2)))
    ∧ (("bob/deep" : String) ≠ "" ∧ ∃ snap : RepoSnapshot,
      alookup ((splitOwnerRepo "alice" "bob/deep").1 ++ "/"
            ++ (splitOwnerRepo "alice" "bob/deep").2)
          ((cache_repo_structure (mkCtx "alice" "tok" "T0" [] []) (some "bob/deep")
            (fun _ => some [RItem.dir "a" "a" (some [RItem.dir "b" "a/b"
              (some [RItem.dir "c" "a/b/c" (some [RItem.file "f" "a/b/c/f" 1 "u"])])])])
            (CRSRemote.ok [])).1).repos_cache = some snap
        ∧ snap.file_count = snap.files.countP (fun e => e.kind == EKind.file)
        ∧ snap.dir_count = snap.files.countP (fun e => e.kind == EKind.dir)
        ∧ snap.files = fetch_repo_tree_recursive
            ((fun _ : String => some [RItem.dir "a" "a" (some [RItem.dir "b" "a/b"
              (some [RItem.dir "c" "a/b/c" (some [RItem.file "f" "a/b/c/f" 1 "u"])])])])
              ((splitOwnerRepo "alice" "bob/deep").1 ++ "/"
                ++ (splitOwnerRepo "alice" "bob/deep").2))) :=
  ⟨⟨by decide, snapshot_counts (mkCtx "alice" "tok" "T0" [] []) "repo1"
      (fun _ => some [RItem.file "README.md" "README.md" 10 "u"]) (CRSRemote.ok [])
      (by decide)⟩,
   ⟨by decide, snapshot_counts (mkCtx "alice" "tok" "T0" [] []) "bob/deep"
      (fun _ => some [RItem.dir "a" "a" (some [RItem.dir "b" "a/b"
        (some [RItem.dir "c" "a/b/c" (some [RItem.file "f" "a/b/c/f" 1 "u"])])])])
      (CRSRemote.ok []) (by decide)⟩⟩

/-- C2 counterexample: create_repo completes with a handled connectivity
error whose message has 600 characters; the Execution Record it appends
stores the result untruncated, 632 characters long, above the claimed
500-character cap for a short-form tool. Moreover two remote-action tools
complete without appending any record at all: get_repo_info on every path,
and review_pull_request when it rejects an invalid event. -/
theorem audit_record_cap_counterexample :
    ((create_repo (mkCtx "alice" "tok" "T0" [] []) "myrepo" "" false
        (CRResp.netError (String.mk (List.replicate 600 'x')))).1.tool_executions.map
      (fun r => r.output.length)) = [632] ∧ 500 < 632
  ∧ (get_repo_info (mkCtx "alice" "tok" "T0" [] []) "o/r"
      GRIResp.errorStatus).1.tool_executions = []
  ∧ (review_pull_request (mkCtx "alice" "tok" "T0" [] []) "o/r" 1 "NOPE" ""
      RPRResp.notFound).1.tool_executions = [] := by
  have h600 : (String.mk (List.replicate 600 'x')).length = 600 := by
    show (List.replicate 600 'x').length = 600
    exact List.length_replicate 600 'x'
  have h32 : ("Error connecting to GitHub API: " : String).length = 32 := by decide
  have h1 : ("Error connecting to GitHub API: "
      ++ String.mk (List.replicate 600 'x')).length = 632 := by
    rw [String.length_append, h600, h32]
  refine ⟨?_, by norm_num, rfl, rfl⟩
  have hmap : ((create_repo (mkCtx "alice" "tok" "T0" [] []) "myrepo" "" false
      (CRResp.netError (String.mk (List.replicate 600 'x')))).1.tool_executions.map
        (fun r => r.output.length))
      = [("Error connecting to GitHub API: "
          ++ String.mk (List.replicate 600 'x')).length] := rfl
  rw [hmap, h1]

/-- C2 (amended): every remote-action tool except two appends exactly one
Execution Record on completion; get_file_content truncates the record
output at 500 characters plus a 3-character ellipsis (length at most 503);
get_pr_diff truncates the record of its main, connectivity-error and
unexpected-error paths at 1000 characters plus the ellipsis (length at most
1003) but writes the records of its two early error returns untruncated;
create_branch, create_pull_request, list_branches, list_pull_requests and
merge_pull_request truncate the record output at 500 characters with no
ellipsis; create_repo, delete_repo, fork_repo, get_user_info and
list_repos write the record output untruncated (the full result string,
with no cap); the two exceptions are get_repo_info, which never appends a
record, and review_pull_request, which appends nothing when it rejects the
invocation (invalid event, or REQUEST_CHANGES without a body) and appends
exactly one untruncated record otherwise. -/
theorem audit_record_append_caps (ctx : Ctx) (rn fp d : String) (priv : Bool)
    (gresp : GFCResp) (cresp : CRResp) (n : Int) (pr : PRData) (files : List PRFile)
    (st : Nat) (m : Option String) (e : String) (lresp : LRFResp)
    (ornm : Option String) (treeOf : String → RepoTree) (crs : CRSRemote)
    (bn fb ti hb bb : String) (df : Bool) (hro : Option String)
    (cbresp : CBResp) (cprresp : CPRResp) (drresp : DRResp) (furl : String)
    (frresp : FRResp) (lbresp : LBResp) (st2 : String) (lprresp : LPRResp)
    (lrresp : LRResp) (mm ct cm : String) (mprresp : MPRResp)
    (griresp : GRIResp) (pn : Int) (ev bd : String) (rprresp : RPRResp) :
    (∃ rec, (get_file_content ctx rn fp gresp).1.tool_executions
        = ctx.tool_executions ++ [rec] ∧ rec.output.length ≤ 503)
  ∧ (∃ rec, (create_repo ctx rn d priv cresp).1.tool_executions
        = ctx.tool_executions ++ [rec] ∧ rec.output = (create_repo ctx rn d priv cresp).2)
  ∧ (∃ rec, (get_pr_diff ctx rn n (GPDResp.ok pr files)).1.tool_executions
        = ctx.tool_executions ++ [rec] ∧ rec.output.length ≤ 1003)
  ∧ (∃ rec, (get_pr_diff ctx rn n (GPDResp.netError e)).1.tool_executions
        = ctx.tool_executions ++ [rec] ∧ rec.output.length ≤ 1003)
  ∧ (∃ rec, (get_pr_diff ctx rn n (GPDResp.unexpected e)).1.tool_executions
        = ctx.tool_executions ++ [rec] ∧ rec.output.length ≤ 1003)
  ∧ (∃ rec, (get_pr_diff ctx rn n GPDResp.prNotFound).1.tool_executions
        = ctx.tool_executions ++ [rec]
        ∧ rec.output = (get_pr_diff ctx rn n GPDResp.prNotFound).2)
  ∧ (∃ rec, (get_pr_diff ctx rn n (GPDResp.prError st m)).1.tool_executions
        = ctx.tool_executions ++ [rec]
        ∧ rec.output = (get_pr_diff ctx rn n (GPDResp.prError st m)).2)
  ∧ (∃ rec, (get_pr_diff ctx rn n (GPDResp.filesError m)).1.tool_executions
        = ctx.tool_executions ++ [rec]
        ∧ rec.output = (get_pr_diff ctx rn n (GPDResp.filesError m)).2)
  ∧ (∃ rec, (list_repo_files ctx rn fp lresp).1.tool_executions
        = ctx.tool_executions ++ [rec])
  ∧ (∃ rec, (cache_repo_structure ctx ornm treeOf crs).1.tool_executions
        = ctx.tool_executions ++ [rec])
  ∧ (∃ rec, (create_branch ctx rn bn fb cbresp).1.tool_executions
        = ctx.tool_executions ++ [rec] ∧ rec.output.length ≤ 500)
  ∧ (∃ rec, (create_pull_request ctx rn ti hb bb d df hro cprresp).1.tool_executions
        = ctx.tool_executions ++ [rec] ∧ rec.output.length ≤ 500)
  ∧ (∃ rec, (list_branches ctx rn lbresp).1.tool_executions
        = ctx.tool_executions ++ [rec] ∧ rec.output.length ≤ 500)
  ∧ (∃ rec, (list_pull_requests ctx rn st2 lprresp).1.tool_executions
        = ctx.tool_executions ++ [rec] ∧ rec.output.length ≤ 500)
  ∧ (∃ rec, (merge_pull_request ctx rn pn mm ct cm mprresp).1.tool_executions
        = ctx.tool_executions ++ [rec] ∧ rec.output.length ≤ 500)
  ∧ (∃ rec, (delete_repo ctx rn drresp).1.tool_executions
        = ctx.tool_executions ++ [rec] ∧ rec.output = (delete_repo ctx rn drresp).2)
  ∧ (∃ rec, (fork_repo ctx furl frresp).1.tool_executions
        = ctx.tool_executions ++ [rec] ∧ rec.output = (fork_repo ctx furl frresp).2)
  ∧ (∃ rec, (get_user_info ctx).1.tool_executions
        = ctx.tool_executions ++ [rec] ∧ rec.output = (get_user_info ctx).2)
  ∧ (∃ rec, (list_repos ctx lrresp).1.tool_executions
        = ctx.tool_executions ++ [rec] ∧ rec.output = (list_repos ctx lrresp).2)
  ∧ (get_repo_info ctx rn griresp).1 = ctx
  ∧ (rprAppends ev bd = false → (review_pull_request ctx rn pn ev bd rprresp).1 = ctx)
  ∧ (rprAppends ev bd = true → ∃ rec,
      (review_pull_request ctx rn pn ev bd rprresp).1.tool_executions
          = ctx.tool_executions ++ [rec]
        ∧ rec.output = (review_pull_request ctx rn pn ev bd rprresp).2) := by
  refine ⟨⟨_, rfl, pyTruncate_length_le 500 _⟩, ⟨_, rfl, rfl⟩,
    ⟨_, rfl, pyTruncate_length_le 1000 _⟩, ⟨_, rfl, pyTruncate_length_le 1000 _⟩,
    ⟨_, rfl, pyTruncate_length_le 1000 _⟩, ⟨_, rfl, rfl⟩, ⟨_, rfl, rfl⟩, ⟨_, rfl, rfl⟩,
    ?_, ?_,
    ⟨_, rfl, pyTruncatePlain_length_le 500 _⟩, ⟨_, rfl, pyTruncatePlain_length_le 500 _⟩,
    ⟨_, rfl, pyTruncatePlain_length_le 500 _⟩, ⟨_, rfl, pyTruncatePlain_length_le 500 _⟩,
    ⟨_, rfl, pyTruncatePlain_length_le 500 _⟩,
    ⟨_, rfl, rfl⟩, ⟨_, rfl, rfl⟩, ⟨_, rfl, rfl⟩, ⟨_, rfl, rfl⟩,
    get_repo_info_ctx ctx rn griresp,
    (review_pull_request_trail ctx rn pn ev bd rprresp).1, ?_⟩
  · obtain ⟨rec, h, -⟩ := list_repo_files_trail ctx rn fp lresp
    exact ⟨rec, h⟩
  · obtain ⟨rec, h, -⟩ := cache_repo_structure_trail ctx ornm treeOf crs
    exact ⟨rec, h⟩
  · intro h
    obtain ⟨rec, h1, -, h3⟩ := (review_pull_request_trail ctx rn pn ev bd rprresp).2 h
    exact ⟨rec, h1, h3⟩

/-- C2 (amended) witness: the review_pull_request implications discharged at
concrete inputs — a rejected invalid event appends nothing, an APPROVE with
a body appends exactly one record. -/
theorem audit_record_append_caps_witness :
    (rprAppends "NOPE" "" = false
      ∧ (review_pull_request (mkCtx "u" "t" "T0" [] []) "o/r" 1 "NOPE" ""
            RPRResp.notFound).1
          = mkCtx "u" "t" "T0" [] [])
  ∧ (rprAppends "APPROVE" "looks good" = true
      ∧ ∃ rec,
        (review_pull_request (mkCtx "u" "t" "T0" [] []) "o/r" 2 "APPROVE" "looks good"
            (RPRResp.ok (some 7))).1.tool_executions
          = (mkCtx "u" "t" "T0" [] []).tool_executions ++ [rec]
        ∧ rec.output = (review_pull_request (mkCtx "u" "t" "T0" [] []) "o/r" 2 "APPROVE"
            "looks good" (RPRResp.ok (some 7))).2) := by
  obtain ⟨-, -, -, -, -, -, -, -, -, -, -, -, -, -, -, -, -, -, -, -, hF, -⟩ :=
    audit_record_append_caps (mkCtx "u" "t" "T0" [] []) "o/r" "" "" false
      GFCResp.notFound CRResp.unauthorized 1 ⟨none, none, none, none, none, none⟩ []
      0 none "" LRFResp.notFound none (fun _ => none) CRSRemote.errorStatus
      "" "" "" "" "" false none CBResp.refError (CPRResp.notFound) DRResp.notFound ""
      FRResp.notFound LBResp.notFound "" LPRResp.notFound LRResp.notFound "" "" ""
      MPRResp.notFound GRIResp.errorStatus 1 "NOPE" "" RPRResp.notFound
  obtain ⟨-, -, -, -, -, -, -, -, -, -, -, -, -, -, -, -, -, -, -, -, -, hT⟩ :=
    audit_record_append_caps (mkCtx "u" "t" "T0" [] []) "o/r" "" "" false
      GFCResp.notFound CRResp.unauthorized 1 ⟨none, none, none, none, none, none⟩ []
      0 none "" LRFResp.notFound none (fun _ => none) CRSRemote.errorStatus
      "" "" "" "" "" false none CBResp.refError (CPRResp.notFound) DRResp.notFound ""
      FRResp.notFound LBResp.notFound "" LPRResp.notFound LRResp.notFound "" "" ""
      MPRResp.notFound GRIResp.errorStatus 2 "APPROVE" "looks good" (RPRResp.ok (some 7))
  exact ⟨⟨by decide, hF (by decide)⟩, ⟨by decide, hT (by decide)⟩⟩

/-- C3 counterexample: a turn that starts with an empty audit trail and
performs two remote-action invocations — a repository-info lookup followed
by a file-content fetch — ends with a trail of one record, not two:
get_repo_info returns its report without ever appending a record. -/
theorem audit_trail_order_counterexample :
    (runTurn (mkCtx "u" "t" "T0" [] [])
        [ToolCall.repoInfo "o/r" GRIResp.errorStatus,
         ToolCall.fileContent "o/r" "f.txt" GFCResp.notFound]).tool_executions.length = 1
  ∧ ([ToolCall.repoInfo "o/r" GRIResp.errorStatus,
      ToolCall.fileContent "o/r" "f.txt" GFCResp.notFound] : List ToolCall).length = 2
  ∧ (1 : Nat) ≠ 2 := by
  refine ⟨rfl, rfl, by decide⟩

/-- C3 (amended): a turn that starts with an empty audit trail ends with
exactly one record per record-appending invocation (trail length = the
count of appending invocations: every invocation except get_repo_info,
which never appends, and review_pull_request rejections on invalid event
or missing REQUEST_CHANGES body, which append nothing); each appending
invocation appends exactly one record to the trail left by the previous
ones and each non-appending invocation leaves the trail unchanged
(invocation order), every intermediate trail is a prefix of the final one,
and the persisted tool_responses mapping built from the trail carries the
synthetic keys tool_0, tool_1, ... in trail order with the records as
values. -/
theorem audit_trail_order_amended (u tok ts : String)
    (cache : List (String × RepoSnapshot)) (calls : List ToolCall) :
    (runTurn (mkCtx u tok ts [] cache) calls).tool_executions.length
        = calls.countP appendsRecord
  ∧ (∀ i, (hi : i < calls.length) →
      (appendsRecord (calls.get ⟨i, hi⟩) = true → ∃ rec,
        (runTurn (mkCtx u tok ts [] cache) (calls.take (i + 1))).tool_executions
          = (runTurn (mkCtx u tok ts [] cache) (calls.take i)).tool_executions ++ [rec])
      ∧ (appendsRecord (calls.get ⟨i, hi⟩) = false →
        (runTurn (mkCtx u tok ts [] cache) (calls.take (i + 1))).tool_executions
          = (runTurn (mkCtx u tok ts [] cache) (calls.take i)).tool_executions))
  ∧ (∀ i, ∃ rest,
      (runTurn (mkCtx u tok ts [] cache) calls).tool_executions
        = (runTurn (mkCtx u tok ts [] cache) (calls.take i)).tool_executions ++ rest)
  ∧ (buildToolsResponses (runTurn (mkCtx u tok ts [] cache) calls).tool_executions).map
        Prod.fst
      = (List.range (calls.countP appendsRecord)).map (fun i => "tool_" ++ toString i)
  ∧ (buildToolsResponses (runTurn (mkCtx u tok ts [] cache) calls).tool_executions).map
        Prod.snd
      = (runTurn (mkCtx u tok ts [] cache) calls).tool_executions := by
  have hlen : (runTurn (mkCtx u tok ts [] cache) calls).tool_executions.length
      = calls.countP appendsRecord := by
    obtain ⟨recs, hr, hl⟩ := runTurn_trail calls (mkCtx u tok ts [] cache)
    have h0 : (mkCtx u tok ts [] cache).tool_executions = [] := rfl
    rw [hr, h0]
    simp [hl]
  refine ⟨hlen, ?_, ?_, ?_, buildToolsResponses_snd _⟩
  · intro i hi
    have hsucc : calls.take (i + 1) = calls.take i ++ [calls.get ⟨i, hi⟩] := by
      rw [List.take_succ, List.getElem?_eq_getElem hi]
      rfl
    constructor
    · intro ha
      rw [hsucc, runTurn_append]
      exact (runTool_trail _ _).1 ha
    · intro ha
      rw [hsucc, runTurn_append]
      exact (runTool_trail _ _).2 ha
  · intro i
    have hsplit : calls = calls.take i ++ calls.drop i := (List.take_append_drop i calls).symm
    obtain ⟨recs, hr, -⟩ :=
      runTurn_trail (calls.drop i) (runTurn (mkCtx u tok ts [] cache) (calls.take i))
    refine ⟨recs, ?_⟩
    conv_lhs => rw [hsplit]
    rw [runTurn_append]
    exact hr
  · rw [buildToolsResponses_fst, hlen]

/-- C3 (amended) witness: a concrete three-invocation turn — create_repo,
get_repo_info, get_file_content — discharging the bound hypotheses of the
order conjuncts at the appending index 0 and the non-appending index 1. -/
theorem audit_trail_order_amended_witness :
    (∃ rec,
      (runTurn (mkCtx "u" "t" "T0" [] [])
          ([ToolCall.repoCreate "r" "" false CRResp.unauthorized,
            ToolCall.repoInfo "o/r" GRIResp.errorStatus,
            ToolCall.fileContent "o/r" "f.txt" GFCResp.notFound].take 1)).tool_executions
        = (runTurn (mkCtx "u" "t" "T0" [] [])
            ([ToolCall.repoCreate "r" "" false CRResp.unauthorized,
              ToolCall.repoInfo "o/r" GRIResp.errorStatus,
              ToolCall.fileContent "o/r" "f.txt" GFCResp.notFound].take 0)).tool_executions
          ++ [rec])
  ∧ ((runTurn (mkCtx "u" "t" "T0" [] [])
          ([ToolCall.repoCreate "r" "" false CRResp.unauthorized,
            ToolCall.repoInfo "o/r" GRIResp.errorStatus,
            ToolCall.fileContent "o/r" "f.txt" GFCResp.notFound].take 2)).tool_executions
        = (runTurn (mkCtx "u" "t" "T0" [] [])
            ([ToolCall.repoCreate "r" "" false CRResp.unauthorized,
              ToolCall.repoInfo "o/r" GRIResp.errorStatus,
              ToolCall.fileContent "o/r" "f.txt" GFCResp.notFound].take 1)).tool_executions) :=
  ⟨((audit_trail_order_amended "u" "t" "T0" []
      [ToolCall.repoCreate "r" "" false CRResp.unauthorized,
       ToolCall.repoInfo "o/r" GRIResp.errorStatus,
       ToolCall.fileContent "o/r" "f.txt" GFCResp.notFound]).2.1 0 (by decide)).1 (by decide),
   ((audit_trail_order_amended "u" "t" "T0" []
      [ToolCall.repoCreate "r" "" false CRResp.unauthorized,
       ToolCall.repoInfo "o/r" GRIResp.errorStatus,
       ToolCall.fileContent "o/r" "f.txt" GFCResp.notFound]).2.1 1 (by decide)).2 (by decide)⟩

/-- C4: a file-content lookup answered 404 returns, when the owning
repository has a cached snapshot, the fallback message built from every
cached path of kind file sorted ascending (the sorted list is a permutation
of exactly those paths); and when no snapshot is cached for that
repository, the plain not-found message carrying no path list. -/
theorem file_miss_fallback (ctx : Ctx) (rn fp : String) :
    (∀ snap : RepoSnapshot,
      alookup ((splitOwnerRepo ctx.github_username rn).1 ++ "/"
          ++ (splitOwnerRepo ctx.github_username rn).2) ctx.repos_cache = some snap →
        (get_file_content ctx rn fp GFCResp.notFound).2
            = "Error: File \x27" ++ fp ++ "\x27 not found in repository \x27"
              ++ ((splitOwnerRepo ctx.github_username rn).1 ++ "/"
                  ++ (splitOwnerRepo ctx.github_username rn).2)
              ++ "\x27. Available files in this repository: "
              ++ String.intercalate "\n"
                  ((cachedFilePathsSorted snap).map (fun q => "  - " ++ q))
              ++ " Please choose the closest matching file from the list above and try again."
          ∧ (cachedFilePathsSorted snap).Sorted pyLe
          ∧ (cachedFilePathsSorted snap).Perm
              ((snap.files.filter (fun f => f.kind == EKind.file)).map (fun f => f.path)))
  ∧ (alookup ((splitOwnerRepo ctx.github_username rn).1 ++ "/"
        ++ (splitOwnerRepo ctx.github_username rn).2) ctx.repos_cache = none →
      (get_file_content ctx rn fp GFCResp.notFound).2
        = "Error: File \x27" ++ fp ++ "\x27 not found in repository \x27"
          ++ (splitOwnerRepo ctx.github_username rn).1 ++ "/"
          ++ (splitOwnerRepo ctx.github_username rn).2 ++ "\x27.1") := by
  constructor
  · intro snap hsnap
    refine ⟨?_, @List.sorted_insertionSort _ pyLe inferInstance ⟨pyLe_total⟩ ⟨pyLe_trans⟩ _,
      List.perm_insertionSort pyLe _⟩
    show gfcResult ctx _ _ fp GFCResp.notFound = _
    simp only [gfcResult, hsnap]
  · intro hnone
    show gfcResult ctx _ _ fp GFCResp.notFound = _
    simp only [gfcResult, hnone]

/-- C4 witness: the typo scenario against the cached alice/repo1 of
demoCtx, and the same miss against the empty cache of emptyCtx. -/
theorem file_miss_fallback_witness :
    ((get_file_content demoCtx "alice/repo1" "src/main.g" GFCResp.notFound).2
          = "Error: File \x27src/main.g\x27 not found in repository \x27"
            ++ ((splitOwnerRepo demoCtx.github_username "alice/repo1").1 ++ "/"
                ++ (splitOwnerRepo demoCtx.github_username "alice/repo1").2)
            ++ "\x27. Available files in this repository: "
            ++ String.intercalate "\n"
                ((cachedFilePathsSorted demoSnap).map (fun q => "  - " ++ q))
            ++ " Please choose the closest matching file from the list above and try again."
        ∧ (cachedFilePathsSorted demoSnap).Sorted pyLe
        ∧ (cachedFilePathsSorted demoSnap).Perm
            ((demoSnap.files.filter (fun f => f.kind == EKind.file)).map (fun f => f.path)))
    ∧ ((get_file_content emptyCtx "alice/repo1" "src/main.g" GFCResp.notFound).2
        = "Error: File \x27src/main.g\x27 not found in repository \x27"
          ++ (splitOwnerRepo emptyCtx.github_username "alice/repo1").1 ++ "/"
          ++ (splitOwnerRepo emptyCtx.github_username "alice/repo1").2 ++ "\x27.1") :=
  ⟨(file_miss_fallback demoCtx "alice/repo1" "src/main.g").1 demoSnap (by decide),
   (file_miss_fallback emptyCtx "alice/repo1" "src/main.g").2 (by decide)⟩

/-- C9: the directory-listing operation treats the repository cache as an
advisory guard: with a non-empty cache and a supplied full name absent from
it, the call makes no remote request and returns the message enumerating
the cached keys; with an empty cache the guard is skipped and the remote
request is issued; and a cached name also passes the guard to the remote
request. -/
theorem listing_cache_guard (ctx : Ctx) (rn pth : String) (resp : LRFResp) :
    (ctx.repos_cache ≠ [] →
      alookup ((splitOwnerRepo ctx.github_username rn).1 ++ "/"
          ++ (splitOwnerRepo ctx.github_username rn).2) ctx.repos_cache = none →
        (list_repo_files ctx rn pth resp).2.2 = false
          ∧ (list_repo_files ctx rn pth resp).2.1
            = lrfGuardMessage ((splitOwnerRepo ctx.github_username rn).1 ++ "/"
                ++ (splitOwnerRepo ctx.github_username rn).2)
                (ctx.repos_cache.map (fun q => q.1)))
  ∧ (ctx.repos_cache = [] → (list_repo_files ctx rn pth resp).2.2 = true)
  ∧ (∀ snap : RepoSnapshot,
      alookup ((splitOwnerRepo ctx.github_username rn).1 ++ "/"
          ++ (splitOwnerRepo ctx.github_username rn).2) ctx.repos_cache = some snap →
        (list_repo_files ctx rn pth resp).2.2 = true) := by
  refine ⟨?_, ?_, ?_⟩
  · intro hne hnone
    constructor
    · simp [list_repo_files, hne, hnone]
    · simp [list_repo_files, hne, hnone]
  · intro hempty
    simp [list_repo_files, hempty]
  · intro snap hsnap
    simp [list_repo_files, hsnap]

/-- C9 witness: the guard fires for an unknown name over the one-entry
cache of demoCtx, and listing proceeds remotely over the empty cache of
emptyCtx and for the cached name. -/
theorem listing_cache_guard_witness :
    ((list_repo_files demoCtx "alice/repoX" "" LRFResp.notFound).2.2 = false
      ∧ (list_repo_files demoCtx "alice/repoX" "" LRFResp.notFound).2.1
          = lrfGuardMessage ((splitOwnerRepo demoCtx.github_username "alice/repoX").1 ++ "/"
              ++ (splitOwnerRepo demoCtx.github_username "alice/repoX").2)
              (demoCtx.repos_cache.map (fun q => q.1)))
    ∧ (list_repo_files emptyCtx "alice/repoX" "" LRFResp.notFound).2.2 = true
    ∧ (list_repo_files demoCtx "alice/repo1" "" LRFResp.notFound).2.2 = true :=
  ⟨(listing_cache_guard demoCtx "alice/repoX" "" LRFResp.notFound).1
      (by decide) (by decide),
   (listing_cache_guard emptyCtx "alice/repoX" "" LRFResp.notFound).2.1 (by decide),
   (listing_cache_guard demoCtx "alice/repo1" "" LRFResp.notFound).2.2 demoSnap
      (by decide)⟩

theorem str_append_empty (s : String) : s ++ "" = s := by
  cases s with
  | mk data =>
    show String.mk (data ++ []) = String.mk data
    rw [List.append_nil]

theorem foldl_renderBlock (l : List (String × HistEntry)) :
    ∀ acc : String, l.foldl (fun a q => a ++ renderBlock q) acc = acc ++ joinBlocks l := by
  induction l with
  | nil => intro acc; simp [joinBlocks, str_append_empty]
  | cons q rest ih =>
    intro acc
    simp only [List.foldl_cons, joinBlocks, ih, String.append_assoc]

/-- C1: save_conversation is atomic.  Under the documented precondition
that the owning session record exists, every call either returns ok with
both writes applied — the turn row appended to the conversation table and
the turn summary merged into the owning session record with updated_at
advanced — or returns an error with the store unchanged; one write without
the other is never produced, and any injected failure (or an uninitialized
pool) surfaces as an error to the caller. -/
theorem save_turn_atomic (st : DBState) (pool : Bool) (fail : FailAt) (sid uq : String)
    (ao : AssistantOut) (ts : Option String) (now cid : String)
    (hsess : ∃ srow ∈ st.session_chat, srow.session_id = sid) :
    (((save_conversation st pool fail (some sid) uq ao ts now cid).1 = st
        ∧ ∃ e, (save_conversation st pool fail (some sid) uq ao ts now cid).2
            = Except.error e)
      ∨ ((save_conversation st pool fail (some sid) uq ao ts now cid).2 = Except.ok cid
        ∧ (save_conversation st pool fail (some sid) uq ao ts now cid).1.conversation
            = st.conversation ++ [⟨cid, sid, ts.getD now, uq, ao⟩]
        ∧ ∃ srow ∈ (save_conversation st pool fail (some sid) uq ao ts now cid).1.session_chat,
            srow.session_id = sid
              ∧ alookup cid srow.history = some ⟨ts.getD now, uq, ao⟩
              ∧ srow.updated_at = ts.getD now))
  ∧ ((fail ≠ FailAt.noFail ∨ pool = false) →
      ∃ e, (save_conversation st pool fail (some sid) uq ao ts now cid).2
          = Except.error e) := by
  obtain ⟨srow, hmem, hsid⟩ := hsess
  by_cases hp : pool = false
  · constructor
    · left
      constructor
      · simp [save_conversation, hp]
      · exact ⟨"Database not initialized", by simp [save_conversation, hp]⟩
    · intro _
      exact ⟨"Database not initialized", by simp [save_conversation, hp]⟩
  · have hpt : pool = true := by
      cases pool
      · exact absurd rfl hp
      · rfl
    subst hpt
    cases fail with
    | noFail =>
      constructor
      · right
        refine ⟨rfl, rfl, ?_⟩
        refine ⟨{ srow with
            history := jsonbMerge srow.history cid ⟨ts.getD now, uq, ao⟩
            updated_at := ts.getD now }, ?_, hsid, alookup_jsonbMerge _ _ _, rfl⟩
        show _ ∈ st.session_chat.map (fun r =>
          if r.session_id = sid then
            { r with history := jsonbMerge r.history cid ⟨ts.getD now, uq, ao⟩
                     updated_at := ts.getD now }
          else r)
        refine List.mem_map.mpr ⟨srow, hmem, ?_⟩
        simp [hsid]
      · intro h
        rcases h with h | h
        · exact absurd rfl h
        · exact absurd h (by simp)
    | getconn =>
      exact ⟨Or.inl ⟨rfl, _, rfl⟩, fun _ => ⟨_, rfl⟩⟩
    | insert =>
      exact ⟨Or.inl ⟨rfl, _, rfl⟩, fun _ => ⟨_, rfl⟩⟩
    | update =>
      exact ⟨Or.inl ⟨rfl, _, rfl⟩, fun _ => ⟨_, rfl⟩⟩
    | commit =>
      exact ⟨Or.inl ⟨rfl, _, rfl⟩, fun _ => ⟨_, rfl⟩⟩

/-- C1 witness: a successful save against a store holding session s, and a
rolled-back save with an injected commit failure. -/
theorem save_turn_atomic_witness :
    (((save_conversation ⟨[], [⟨"s", "u", "T0", "T0", []⟩]⟩ true FailAt.noFail (some "s")
          "q" ⟨[], "a"⟩ (some "T1") "T1" "c1").1 = ⟨[], [⟨"s", "u", "T0", "T0", []⟩]⟩
        ∧ ∃ e, (save_conversation ⟨[], [⟨"s", "u", "T0", "T0", []⟩]⟩ true FailAt.noFail
            (some "s") "q" ⟨[], "a"⟩ (some "T1") "T1" "c1").2 = Except.error e)
      ∨ ((save_conversation ⟨[], [⟨"s", "u", "T0", "T0", []⟩]⟩ true FailAt.noFail (some "s")
            "q" ⟨[], "a"⟩ (some "T1") "T1" "c1").2 = Except.ok "c1"
        ∧ (save_conversation ⟨[], [⟨"s", "u", "T0", "T0", []⟩]⟩ true FailAt.noFail (some "s")
            "q" ⟨[], "a"⟩ (some "T1") "T1" "c1").1.conversation
            = ([] : List ConvRow) ++ [⟨"c1", "s", (some "T1").getD "T1", "q", ⟨[], "a"⟩⟩]
        ∧ ∃ srow ∈ (save_conversation ⟨[], [⟨"s", "u", "T0", "T0", []⟩]⟩ true FailAt.noFail
              (some "s") "q" ⟨[], "a"⟩ (some "T1") "T1" "c1").1.session_chat,
            srow.session_id = "s"
              ∧ alookup "c1" srow.history = some ⟨(some "T1").getD "T1", "q", ⟨[], "a"⟩⟩
              ∧ srow.updated_at = (some "T1").getD "T1"))
    ∧ (FailAt.commit ≠ FailAt.noFail ∨ (true : Bool) = false →
        ∃ e, (save_conversation ⟨[], [⟨"s", "u", "T0", "T0", []⟩]⟩ true FailAt.commit
            (some "s") "q" ⟨[], "a"⟩ (some "T1") "T1" "c1").2 = Except.error e) :=
  ⟨(save_turn_atomic ⟨[], [⟨"s", "u", "T0", "T0", []⟩]⟩ true FailAt.noFail "s" "q"
      ⟨[], "a"⟩ (some "T1") "T1" "c1" (by decide)).1,
   (save_turn_atomic ⟨[], [⟨"s", "u", "T0", "T0", []⟩]⟩ true FailAt.commit "s" "q"
      ⟨[], "a"⟩ (some "T1") "T1" "c1" (by decide)).2⟩

/-- C8: when the inbound request carries no session_id, the request-level
persistence step leaves the conversation store (both the turn log and the
session table) unchanged: the session insert is skipped, and the
unconditional save_conversation call fails its turn-log insert and rolls
back, for every pool state and injected failure.  The spec-modelled schema
constraint lives in save_conversation. -/
theorem absent_session_not_persisted (st : DBState) (pool : Bool) (fail : FailAt)
    (username uq : String) (ao : AssistantOut) (ts : Option String) (now cid : String) :
    (persist_turn st pool fail none username uq ao ts now cid).1 = st := by
  unfold persist_turn save_conversation
  cases pool <;> cases fail <;> rfl

set_option maxRecDepth 10000 in
/-- C5: history replay sorts turns ascending by their recorded timestamp
string, not by insertion order: the rendered context is the header, the
blocks of a permutation of the history that is sorted by timestamp, and the
end-of-history sentinel; each block is the timestamp line, user line,
tool-responses line and assistant line of renderBlock; and in the concrete
out-of-order scenario (T2 inserted before T1) the T1 block renders first,
with the current query appended after the sentinel. -/
theorem history_replay_sorted (env : ReadEnv) (sid : String) (row : SessionRow)
    (henv : env.pool = true) (hg : env.getconnFails = false) (hq : env.queryFails = false)
    (hrow : env.db.session_chat.find? (fun r => r.session_id == sid) = some row)
    (hh : row.history ≠ []) (hsid : sid ≠ "") :
    (fetch_chat_history env (some sid)
        = Except.ok ("\n[Previous Conversation]\n"
            ++ joinBlocks (List.insertionSort histLe row.history)
            ++ "[End of Previous Conversation]\n\n")
      ∧ (List.insertionSort histLe row.history).Sorted histLe
      ∧ (List.insertionSort histLe row.history).Perm row.history)
  ∧ mkFullQuery
      (formatHistory [("c2", ⟨"T2", "q2", ⟨[], "a2"⟩⟩), ("c1", ⟨"T1", "q1", ⟨[], "a1"⟩⟩)])
      "qs"
      = "\n[Previous Conversation]\n"
        ++ renderBlock ("c1", ⟨"T1", "q1", ⟨[], "a1"⟩⟩)
        ++ renderBlock ("c2", ⟨"T2", "q2", ⟨[], "a2"⟩⟩)
        ++ "[End of Previous Conversation]\n\n[Current Query]\nqs" := by
  constructor
  · refine ⟨?_, @List.sorted_insertionSort _ histLe inferInstance
      ⟨fun a b => pyLe_total a.2.timestamp b.2.timestamp⟩
      ⟨fun _ _ _ hab hbc => pyLe_trans _ _ _ hab hbc⟩ _,
      List.perm_insertionSort histLe _⟩
    have hgsh : get_session_history env sid = Except.ok row.history := by
      unfold get_session_history
      rw [henv, hg, hq]
      simp only [Bool.true_eq_false, Bool.false_eq_true, if_false, hrow]
      rw [if_pos hh]
    have ht : truthyOpt (some sid) = true := by simp [truthyOpt, hsid]
    unfold fetch_chat_history
    rw [ht]
    rw [if_neg (by simp)]
    simp only [Option.getD_some]
    rw [hgsh]
    show (if row.history = [] then Except.ok "" else Except.ok (formatHistory row.history))
        = _
    rw [if_neg hh]
    unfold formatHistory
    simp only [foldl_renderBlock, String.append_assoc]
  · decide

/-- C5 witness: a store whose session s holds two turns inserted with
timestamps T2 then T1; the replay for s renders the T1 block first. -/
theorem history_replay_sorted_witness :
    (fetch_chat_history
        ⟨true, false, false,
          ⟨[], [⟨"s", "u", "T0", "T2",
            [("c2", ⟨"T2", "q2", ⟨[], "a2"⟩⟩), ("c1", ⟨"T1", "q1", ⟨[], "a1"⟩⟩)]⟩]⟩⟩
        (some "s")
        = Except.ok ("\n[Previous Conversation]\n"
            ++ joinBlocks (List.insertionSort histLe
                [("c2", ⟨"T2", "q2", ⟨[], "a2"⟩⟩), ("c1", ⟨"T1", "q1", ⟨[], "a1"⟩⟩)])
            ++ "[End of Previous Conversation]\n\n")
      ∧ (List.insertionSort histLe
          [("c2", ⟨"T2", "q2", ⟨[], "a2"⟩⟩), ("c1", ⟨"T1", "q1", ⟨[], "a1"⟩⟩)]).Sorted histLe
      ∧ (List.insertionSort histLe
          [("c2", ⟨"T2", "q2", ⟨[], "a2"⟩⟩), ("c1", ⟨"T1", "q1", ⟨[], "a1"⟩⟩)]).Perm
          [("c2", ⟨"T2", "q2", ⟨[], "a2"⟩⟩), ("c1", ⟨"T1", "q1", ⟨[], "a1"⟩⟩)])
  ∧ mkFullQuery
      (formatHistory [("c2", ⟨"T2", "q2", ⟨[], "a2"⟩⟩), ("c1", ⟨"T1", "q1", ⟨[], "a1"⟩⟩)])
      "qs"
      = "\n[Previous Conversation]\n"
        ++ renderBlock ("c1", ⟨"T1", "q1", ⟨[], "a1"⟩⟩)
        ++ renderBlock ("c2", ⟨"T2", "q2", ⟨[], "a2"⟩⟩)
        ++ "[End of Previous Conversation]\n\n[Current Query]\nqs" :=
  history_replay_sorted
    ⟨true, false, false,
      ⟨[], [⟨"s", "u", "T0", "T2",
        [("c2", ⟨"T2", "q2", ⟨[], "a2"⟩⟩), ("c1", ⟨"T1", "q1", ⟨[], "a1"⟩⟩)]⟩]⟩⟩
    "s"
    ⟨"s", "u", "T0", "T2",
      [("c2", ⟨"T2", "q2", ⟨[], "a2"⟩⟩), ("c1", ⟨"T1", "q1", ⟨[], "a1"⟩⟩)]⟩
    rfl rfl rfl (by decide) (by decide) (by decide)

/-- C10 counterexample: with an initialized pool but a failing connection
acquisition, both read paths raise (the handler trips over the unbound
local conn) instead of returning the empty mapping or list. -/
theorem read_paths_counterexample :
    get_session_history ⟨true, true, false, ⟨[], []⟩⟩ "s"
        = Except.error "NameError: conn referenced before assignment"
      ∧ get_conversations_by_session ⟨true, true, false, ⟨[], []⟩⟩ "s" 50
        = Except.error "NameError: conn referenced before assignment"
      ∧ get_session_history ⟨true, true, false, ⟨[], []⟩⟩ "s"
          ≠ Except.ok []
      ∧ get_conversations_by_session ⟨true, true, false, ⟨[], []⟩⟩ "s" 50
          ≠ Except.ok [] :=
  ⟨rfl, rfl, by simp [get_session_history], by simp [get_conversations_by_session]⟩

/-- C10 (amended): the read paths return the empty mapping or list when the
connection pool is uninitialized and when a failure occurs after a
connection was acquired; but when acquiring the connection itself fails,
the exception handler references an unbound local and the resulting
NameError propagates to the caller instead of an empty result. -/
theorem read_paths_amended (env : ReadEnv) (sid : String) (limit : Nat) :
    (env.pool = false →
      get_session_history env sid = Except.ok []
        ∧ get_conversations_by_session env sid limit = Except.ok [])
  ∧ (env.pool = true → env.getconnFails = false → env.queryFails = true →
      get_session_history env sid = Except.ok []
        ∧ get_conversations_by_session env sid limit = Except.ok [])
  ∧ (env.pool = true → env.getconnFails = true →
      (∃ e, get_session_history env sid = Except.error e)
        ∧ ∃ e, get_conversations_by_session env sid limit = Except.error e) := by
  refine ⟨?_, ?_, ?_⟩
  · intro h
    constructor
    · simp [get_session_history, h]
    · simp [get_conversations_by_session, h]
  · intro h1 h2 h3
    constructor
    · simp [get_session_history, h1, h2, h3]
    · simp [get_conversations_by_session, h1, h2, h3]
  · intro h1 h2
    constructor
    · exact ⟨"NameError: conn referenced before assignment",
        by simp [get_session_history, h1, h2]⟩
    · exact ⟨"NameError: conn referenced before assignment",
        by simp [get_conversations_by_session, h1, h2]⟩

/-- C10 witness: the three branches of the amended statement at concrete
environments. -/
theorem read_paths_amended_witness :
    (get_session_history ⟨false, false, false, ⟨[], []⟩⟩ "s" = Except.ok []
      ∧ get_conversations_by_session ⟨false, false, false, ⟨[], []⟩⟩ "s" 50 = Except.ok [])
  ∧ (get_session_history ⟨true, false, true, ⟨[], []⟩⟩ "s" = Except.ok []
      ∧ get_conversations_by_session ⟨true, false, true, ⟨[], []⟩⟩ "s" 50 = Except.ok [])
  ∧ ((∃ e, get_session_history ⟨true, true, false, ⟨[], []⟩⟩ "s" = Except.error e)
      ∧ ∃ e, get_conversations_by_session ⟨true, true, false, ⟨[], []⟩⟩ "s" 50
          = Except.error e) :=
  ⟨(read_paths_amended ⟨false, false, false, ⟨[], []⟩⟩ "s" 50).1 rfl,
   (read_paths_amended ⟨true, false, true, ⟨[], []⟩⟩ "s" 50).2.1 rfl rfl rfl,
   (read_paths_amended ⟨true, true, false, ⟨[], []⟩⟩ "s" 50).2.2 rfl rfl⟩

end GitAgent
